import Mathlib

/-!
NHttpMsgSection: depth-adaptive sizing and detection-buffer dispatch.

A shallow embedding of the constructor of `NHttpMsgSection`, of
`NHttpMsgSection::update_depth` and of `NHttpMsgSection::get_classic_buffer`
(nhttp_msg_section.cc) together with the properties of them that the
specification states.

Conventions of the embedding.

* Objects reached through pointers (`session_data`, `transaction`) are passed
  explicitly as state; a method that writes through the pointer returns the new
  state.
* `assert(false)` is the fatal internal invariant violation. A run either
  returns or ends in `Outcome.assert_failed`.
* Enumerators and block-size constants come from nhttp_enum.h, which is not
  part of the source at hand. They are the fields of `NHttpEnums`, and a
  `switch` is the chain of comparisons against its case labels.
-/

namespace NHttp

/-- How a run of a method ends: it returns a value, or it reaches `assert(false)`. -/
inductive Outcome (α : Type) where
  | returned (value : α)
  | assert_failed
deriving DecidableEq, Repr

/-- The direction of a section; it indexes the two-element per-direction arrays. -/
inductive SourceId where
  | SRC_CLIENT
  | SRC_SERVER
deriving DecidableEq, Repr

/-- A two-element array `T name[2]` indexed by `SourceId`. -/
structure PerSource (α : Type) where
  client : α
  server : α
deriving DecidableEq, Repr

/-- Array read `a[source_id]`. -/
def PerSource.get {α : Type} (a : PerSource α) : SourceId → α
  | .SRC_CLIENT => a.client
  | .SRC_SERVER => a.server

/-- Array write `a[source_id] = v`. -/
def PerSource.set {α : Type} (a : PerSource α) (source_id : SourceId) (v : α) : PerSource α :=
  match source_id with
  | .SRC_CLIENT => { a with client := v }
  | .SRC_SERVER => { a with server := v }

/-- The constants of namespace `NHttpEnums` that the two methods mention. Their
values are declared in a header outside the source, so they are parameters.
Buffer ids, URI component ids and header ids are `unsigned`; block sizes and the
compression enumerators are integers. -/
structure NHttpEnums where
  DATA_BLOCK_SIZE : Int
  FINAL_BLOCK_SIZE : Int
  GZIP_BLOCK_SIZE : Int
  FINAL_GZIP_BLOCK_SIZE : Int
  CMP_NONE : Int
  CMP_GZIP : Int
  CMP_DEFLATE : Int
  NHTTP_BUFFER_CLIENT_BODY : Nat
  NHTTP_BUFFER_COOKIE : Nat
  NHTTP_BUFFER_RAW_COOKIE : Nat
  NHTTP_BUFFER_HEADER : Nat
  NHTTP_BUFFER_TRAILER : Nat
  NHTTP_BUFFER_METHOD : Nat
  NHTTP_BUFFER_RAW_HEADER : Nat
  NHTTP_BUFFER_STAT_CODE : Nat
  NHTTP_BUFFER_STAT_MSG : Nat
  NHTTP_BUFFER_RAW_URI : Nat
  NHTTP_BUFFER_URI : Nat
  NHTTP_BUFFER_VERSION : Nat
  NHTTP_BUFFER_RAW_TRAILER : Nat
  UC_SCHEME : Nat
  UC_HOST : Nat
  UC_PORT : Nat
  UC_PATH : Nat
  UC_QUERY : Nat
  UC_FRAGMENT : Nat
  HEAD_COOKIE : Nat
  HEAD_SET_COOKIE : Nat
  METH__NOTPRESENT : Int
  STAT_NOTPRESENT : Int
deriving DecidableEq, Repr

/-- The case labels of the `switch` on the compression mode. -/
def NHttpEnums.compression_labels (k : NHttpEnums) : List Int :=
  [k.CMP_NONE, k.CMP_GZIP, k.CMP_DEFLATE]

/-- The case labels of the `switch` on the buffer id: the declared buffer ids. -/
def NHttpEnums.buffer_labels (k : NHttpEnums) : List Nat :=
  [k.NHTTP_BUFFER_CLIENT_BODY, k.NHTTP_BUFFER_COOKIE, k.NHTTP_BUFFER_RAW_COOKIE,
   k.NHTTP_BUFFER_HEADER, k.NHTTP_BUFFER_TRAILER, k.NHTTP_BUFFER_METHOD,
   k.NHTTP_BUFFER_RAW_HEADER, k.NHTTP_BUFFER_STAT_CODE, k.NHTTP_BUFFER_STAT_MSG,
   k.NHTTP_BUFFER_RAW_URI, k.NHTTP_BUFFER_URI, k.NHTTP_BUFFER_VERSION,
   k.NHTTP_BUFFER_RAW_TRAILER]

/-- The case labels of the `switch` on the URI component: the six components. -/
def NHttpEnums.uri_component_labels (k : NHttpEnums) : List Nat :=
  [k.UC_SCHEME, k.UC_HOST, k.UC_PORT, k.UC_PATH, k.UC_QUERY, k.UC_FRAGMENT]

/-- The case labels within each `switch` are pairwise different, which the
language requires of any `switch` that compiles. -/
def NHttpEnums.case_labels_distinct (k : NHttpEnums) : Prop :=
  k.compression_labels.Nodup ∧ k.buffer_labels.Nodup ∧ k.uri_component_labels.Nodup

instance (k : NHttpEnums) : Decidable k.case_labels_distinct := by
  unfold NHttpEnums.case_labels_distinct
  infer_instance

/-- The per-flow session record `NHttpFlowData`, with the members the source
mentions (the class is declared in a header outside the source). The depth
budgets are `int64_t`; the section sizes hold the value the source assigns to
them. `infractions` and `events` are two 64-bit words each. -/
structure NHttpFlowData where
  file_depth_remaining : PerSource Int
  detect_depth_remaining : PerSource Int
  compression : PerSource Int
  section_size_target : PerSource Int
  section_size_max : PerSource Int
  tcp_close : PerSource Bool
  infractions : PerSource (Nat × Nat)
  events : PerSource (Nat × Nat)
  version_id : PerSource Int
  method_id : Int
  status_code_num : Int
deriving DecidableEq, Repr

/-- Modelled from the spec: the class `Field` (its header is not part of the
source) is "a non-owning view over a byte range, or an explicit absent marker";
`FIELD_NULL` is the absent value `Field::FIELD_NULL`. -/
inductive Field where
  | FIELD_NULL
  | data (bytes : List Nat)
deriving DecidableEq, Repr

/-- The members of a message section, in the order of the constructor's
initialiser list; each holds what its initialiser evaluates to. The pointer
members are left out: `session_data` and `transaction` point to objects that are
passed to the methods as explicit state, `flow` and `params` to objects the
embedded methods never read. `scratch_pad` is the size the arena is constructed
with. -/
structure NHttpMsgSection where
  msg_text : Field
  source_id : SourceId
  tcp_close : Bool
  scratch_pad : Int
  infractions : Nat × Nat
  events : Nat × Nat
  version_id : Int
  method_id : Int
  status_code_num : Int
  delete_msg_on_destruct : Bool
deriving DecidableEq, Repr

/-- The value of an expression of type `int`: the mathematical result reduced to
the 32-bit two's complement range. -/
def int_value (x : Int) : Int :=
  (x + 2 ^ 31) % 2 ^ 32 - 2 ^ 31

set_option linter.dupNamespace false

/-- The constructor `NHttpMsgSection::NHttpMsgSection`. `buffer` is the memory
at the pointer of that name and `msg_text` views its first `buf_size` bytes;
`buf_size` is a `uint16_t`, promoted to `int` in `2*buf_size+500`. The
transaction comes from `NHttpTransaction::attach_my_transaction`, which is
outside the source. -/
def NHttpMsgSection.NHttpMsgSection (k : NHttpEnums) (buffer : List Nat) (buf_size : Nat)
    (session_data_ : NHttpFlowData) (source_id_ : SourceId) (buf_owner : Bool) :
    NHttp.NHttpMsgSection where
  msg_text := .data (buffer.take buf_size)
  source_id := source_id_
  tcp_close := session_data_.tcp_close.get source_id_
  scratch_pad := int_value (int_value (2 * (buf_size : Int)) + 500)
  infractions := session_data_.infractions.get source_id_
  events := session_data_.events.get source_id_
  version_id := session_data_.version_id.get source_id_
  method_id :=
    if source_id_ = .SRC_CLIENT then session_data_.method_id else k.METH__NOTPRESENT
  status_code_num :=
    if source_id_ = .SRC_SERVER then session_data_.status_code_num else k.STAT_NOTPRESENT
  delete_msg_on_destruct := buf_owner

/-- The local `const int64_t& depth` of `update_depth`: a reference to the larger
of the two depth budgets of the direction, read from the current state. -/
def update_depth.depth (source_id : SourceId) (session_data : NHttpFlowData) : Int :=
  if session_data.file_depth_remaining.get source_id ≥
      session_data.detect_depth_remaining.get source_id then
    session_data.file_depth_remaining.get source_id
  else
    session_data.detect_depth_remaining.get source_id

/-- `NHttpMsgSection::update_depth`. Returns how the run ended and the session
state it leaves behind. The `switch` on the compression mode is the chain of
comparisons with its case labels and ends in the `default:` assertion, which
writes nothing. -/
def update_depth (k : NHttpEnums) (self : NHttpMsgSection) (session_data : NHttpFlowData) :
    Outcome Unit × NHttpFlowData :=
  let source_id := self.source_id
  let c := session_data.compression.get source_id
  if c = k.CMP_NONE then
    let s1 : NHttpFlowData := { session_data with
      section_size_target := session_data.section_size_target.set source_id
        (if update_depth.depth source_id session_data ≤ k.DATA_BLOCK_SIZE then
          update_depth.depth source_id session_data
        else k.DATA_BLOCK_SIZE) }
    let s2 : NHttpFlowData := { s1 with
      section_size_max := s1.section_size_max.set source_id
        (if update_depth.depth source_id s1 ≤ k.FINAL_BLOCK_SIZE then
          update_depth.depth source_id s1
        else k.FINAL_BLOCK_SIZE) }
    (.returned (), s2)
  else if c = k.CMP_GZIP ∨ c = k.CMP_DEFLATE then
    let s1 : NHttpFlowData := { session_data with
      section_size_target := session_data.section_size_target.set source_id
        (if update_depth.depth source_id session_data > 0 then k.GZIP_BLOCK_SIZE else 0) }
    let s2 : NHttpFlowData := { s1 with
      section_size_max := s1.section_size_max.set source_id
        (if update_depth.depth source_id s1 > 0 then k.FINAL_GZIP_BLOCK_SIZE else 0) }
    (.returned (), s2)
  else
    (.assert_failed, session_data)

/-- The URI sub-object of a request section, as the value of each accessor that
`get_classic_buffer` calls on it. -/
structure NHttpUri where
  get_scheme : Field
  get_host : Field
  get_norm_host : Field
  get_port : Field
  get_path : Field
  get_norm_path : Field
  get_query : Field
  get_norm_query : Field
  get_fragment : Field
  get_norm_fragment : Field
deriving DecidableEq, Repr

/-- The base class of request and status sections (`NHttpMsgStart`), as the
value of the accessor that `get_classic_buffer` calls on it. -/
structure NHttpMsgStart where
  get_version : Field
deriving DecidableEq, Repr

/-- A request section, as the value of each accessor that `get_classic_buffer`
calls on it (`get_version` through its base class); `get_nhttp_uri` is a pointer
that may be null. -/
structure NHttpMsgRequest extends NHttpMsgStart where
  get_method : Field
  get_uri : Field
  get_uri_norm_legacy : Field
  get_nhttp_uri : Option NHttpUri
deriving DecidableEq, Repr

/-- A status section, as the value of each accessor that `get_classic_buffer`
calls on it. -/
structure NHttpMsgStatus extends NHttpMsgStart where
  get_status_code : Field
  get_reason_phrase : Field
deriving DecidableEq, Repr

/-- The part shared by header and trailer sections (`NHttpMsgHeadShared`):
the whole block, and the normalized value of the header with a given id. -/
structure NHttpMsgHeadShared where
  get_headers : Field
  get_header_value_norm : Nat → Field

/-- A header section is used through its `NHttpMsgHeadShared` part only. -/
abbrev NHttpMsgHeader := NHttpMsgHeadShared

/-- A trailer section is used through its `NHttpMsgHeadShared` part only. -/
abbrev NHttpMsgTrailer := NHttpMsgHeadShared

/-- A body section, as the value of the accessor that `get_classic_buffer`
calls on it. -/
structure NHttpMsgBody where
  get_detect_buf : Field
deriving DecidableEq, Repr

/-- Modelled from the spec: the class `NHttpTransaction` (its header is not part
of the source) "exposes nullable typed accessors for request, status, header (per
direction), trailer (per direction), and body sections". A transaction state is
the value of each accessor; a null pointer is `none`. -/
structure NHttpTransaction where
  get_request : Option NHttpMsgRequest
  get_status : Option NHttpMsgStatus
  get_header : SourceId → Option NHttpMsgHeader
  get_trailer : SourceId → Option NHttpMsgTrailer
  get_body : Option NHttpMsgBody

/-- The inner `switch ((UriComponent)sub_id)` of `get_classic_buffer`, followed
by the `assert(false)` that is reached when no case returns. -/
def get_classic_buffer.uri_component (k : NHttpEnums) (raw : Bool) (uri : NHttpUri)
    (sub_id : Nat) : Outcome Field :=
  if sub_id = k.UC_SCHEME then
    .returned uri.get_scheme
  else if sub_id = k.UC_HOST then
    .returned (if raw then uri.get_host else uri.get_norm_host)
  else if sub_id = k.UC_PORT then
    .returned uri.get_port
  else if sub_id = k.UC_PATH then
    .returned (if raw then uri.get_path else uri.get_norm_path)
  else if sub_id = k.UC_QUERY then
    .returned (if raw then uri.get_query else uri.get_norm_query)
  else if sub_id = k.UC_FRAGMENT then
    .returned (if raw then uri.get_fragment else uri.get_norm_fragment)
  else
    .assert_failed

/-- `NHttpMsgSection::get_classic_buffer`. The outer `switch (id)` is the chain of
comparisons with its case labels and ends in the `default:` assertion. The casts
`(HeaderId)sub_id` and `(UriComponent)sub_id` keep the numeric value. -/
def get_classic_buffer (k : NHttpEnums) (self : NHttpMsgSection) (transaction : NHttpTransaction)
    (id sub_id : Nat) : Outcome Field :=
  let source_id := self.source_id
  if id = k.NHTTP_BUFFER_CLIENT_BODY then
    if source_id ≠ .SRC_CLIENT then
      .returned .FIELD_NULL
    else
      match transaction.get_body with
      | some body => .returned body.get_detect_buf
      | none => .returned .FIELD_NULL
  else if id = k.NHTTP_BUFFER_COOKIE ∨ id = k.NHTTP_BUFFER_RAW_COOKIE then
    match transaction.get_header source_id with
    | none => .returned .FIELD_NULL
    | some header =>
      let cookie_head := if source_id = .SRC_CLIENT then k.HEAD_COOKIE else k.HEAD_SET_COOKIE
      .returned (header.get_header_value_norm cookie_head)
  else if id = k.NHTTP_BUFFER_HEADER ∨ id = k.NHTTP_BUFFER_TRAILER then
    let header : Option NHttpMsgHeadShared :=
      if id = k.NHTTP_BUFFER_HEADER then transaction.get_header source_id
      else transaction.get_trailer source_id
    match header with
    | none => .returned .FIELD_NULL
    | some header =>
      if sub_id = 0 then .returned header.get_headers
      else .returned (header.get_header_value_norm sub_id)
  else if id = k.NHTTP_BUFFER_METHOD then
    match transaction.get_request with
    | some request => .returned request.get_method
    | none => .returned .FIELD_NULL
  else if id = k.NHTTP_BUFFER_RAW_HEADER then
    match transaction.get_header source_id with
    | some header => .returned header.get_headers
    | none => .returned .FIELD_NULL
  else if id = k.NHTTP_BUFFER_STAT_CODE then
    match transaction.get_status with
    | some status => .returned status.get_status_code
    | none => .returned .FIELD_NULL
  else if id = k.NHTTP_BUFFER_STAT_MSG then
    match transaction.get_status with
    | some status => .returned status.get_reason_phrase
    | none => .returned .FIELD_NULL
  else if id = k.NHTTP_BUFFER_RAW_URI ∨ id = k.NHTTP_BUFFER_URI then
    let raw : Bool := decide (id = k.NHTTP_BUFFER_RAW_URI)
    match transaction.get_request with
    | none => .returned .FIELD_NULL
    | some request =>
      if sub_id = 0 then
        .returned (if raw then request.get_uri else request.get_uri_norm_legacy)
      else
        match request.get_nhttp_uri with
        | none => .returned .FIELD_NULL
        | some uri => get_classic_buffer.uri_component k raw uri sub_id
  else if id = k.NHTTP_BUFFER_VERSION then
    let start : Option NHttpMsgStart :=
      if source_id = .SRC_CLIENT then transaction.get_request.map NHttpMsgRequest.toNHttpMsgStart
      else transaction.get_status.map NHttpMsgStatus.toNHttpMsgStart
    match start with
    | some start => .returned start.get_version
    | none => .returned .FIELD_NULL
  else if id = k.NHTTP_BUFFER_RAW_TRAILER then
    match transaction.get_trailer source_id with
    | some trailer => .returned trailer.get_headers
    | none => .returned .FIELD_NULL
  else
    .assert_failed

/-- Constants for the worked scenarios: the block sizes are the ones the
specification's scenarios use; the enumerator values are illustrative. -/
def scenario_enums : NHttpEnums where
  DATA_BLOCK_SIZE := 16384
  FINAL_BLOCK_SIZE := 1000000
  GZIP_BLOCK_SIZE := 8192
  FINAL_GZIP_BLOCK_SIZE := 65536
  CMP_NONE := 2
  CMP_GZIP := 3
  CMP_DEFLATE := 4
  NHTTP_BUFFER_CLIENT_BODY := 1
  NHTTP_BUFFER_COOKIE := 2
  NHTTP_BUFFER_RAW_COOKIE := 3
  NHTTP_BUFFER_HEADER := 4
  NHTTP_BUFFER_TRAILER := 5
  NHTTP_BUFFER_METHOD := 6
  NHTTP_BUFFER_RAW_HEADER := 7
  NHTTP_BUFFER_STAT_CODE := 8
  NHTTP_BUFFER_STAT_MSG := 9
  NHTTP_BUFFER_RAW_URI := 10
  NHTTP_BUFFER_URI := 11
  NHTTP_BUFFER_VERSION := 12
  NHTTP_BUFFER_RAW_TRAILER := 13
  UC_SCHEME := 1
  UC_HOST := 2
  UC_PORT := 3
  UC_PATH := 4
  UC_QUERY := 5
  UC_FRAGMENT := 6
  HEAD_COOKIE := 14
  HEAD_SET_COOKIE := 47
  METH__NOTPRESENT := -11
  STAT_NOTPRESENT := -11

/-- A session state for the worked scenarios: the client direction has the given
compression mode and depth budgets, the server direction is uncompressed with
budgets 700 and 900; the size fields hold earlier values. -/
def scenario_flow (compression file_depth detect_depth : Int) : NHttpFlowData where
  file_depth_remaining := ⟨file_depth, 700⟩
  detect_depth_remaining := ⟨detect_depth, 900⟩
  compression := ⟨compression, 2⟩
  section_size_target := ⟨11, 12⟩
  section_size_max := ⟨21, 22⟩
  tcp_close := ⟨false, true⟩
  infractions := ⟨(0, 5), (0, 0)⟩
  events := ⟨(0, 0), (1, 0)⟩
  version_id := ⟨1, 1⟩
  method_id := 3
  status_code_num := 200

/-- A client-direction section, constructed over a borrowed 3-byte buffer. -/
def client_section : NHttpMsgSection :=
  NHttpMsgSection.NHttpMsgSection scenario_enums [71, 69, 84] 3 (scenario_flow 2 50000 200)
    .SRC_CLIENT false

/-- A server-direction section, constructed over a borrowed 2-byte buffer. -/
def server_section : NHttpMsgSection :=
  NHttpMsgSection.NHttpMsgSection scenario_enums [79, 75] 2 (scenario_flow 2 50000 200)
    .SRC_SERVER false

/-- A request section for the worked scenarios: `GET /a?b HTTP/1.1`, with a URI
sub-object. -/
def scenario_request : NHttpMsgRequest where
  get_version := .data [72, 84, 84, 80, 47, 49, 46, 49]
  get_method := .data [71, 69, 84]
  get_uri := .data [47, 97, 63, 98]
  get_uri_norm_legacy := .data [47, 97, 63, 98]
  get_nhttp_uri := some {
    get_scheme := .FIELD_NULL
    get_host := .FIELD_NULL
    get_norm_host := .FIELD_NULL
    get_port := .FIELD_NULL
    get_path := .data [47, 97]
    get_norm_path := .data [47, 97]
    get_query := .data [98]
    get_norm_query := .data [98]
    get_fragment := .FIELD_NULL
    get_norm_fragment := .FIELD_NULL }

/-- A status section for the worked scenarios: `HTTP/1.1 200 OK`. -/
def scenario_status : NHttpMsgStatus where
  get_version := .data [72, 84, 84, 80, 47, 49, 46, 49]
  get_status_code := .data [50, 48, 48]
  get_reason_phrase := .data [79, 75]

/-- A transaction that holds no section at all. -/
def empty_transaction : NHttpTransaction where
  get_request := none
  get_status := none
  get_header := fun _ => none
  get_trailer := fun _ => none
  get_body := none

/-- A transaction to which only the request section has attached. -/
def request_only_transaction : NHttpTransaction :=
  { empty_transaction with get_request := some scenario_request }

/-- The same transaction after the status section has attached as well. -/
def request_status_transaction : NHttpTransaction :=
  { request_only_transaction with get_status := some scenario_status }

/-- The cookie buffer in the words of the specification: "transaction's header
section for this direction, normalized header value keyed by the
direction-appropriate cookie header name (request: Cookie, response:
Set-Cookie)", and absent when the direction has no header section. -/
def cookie_buffer_spec (k : NHttpEnums) (source_id : SourceId) (t : NHttpTransaction) : Field :=
  match t.get_header source_id with
  | none => .FIELD_NULL
  | some header =>
    match source_id with
    | .SRC_CLIENT => header.get_header_value_norm k.HEAD_COOKIE
    | .SRC_SERVER => header.get_header_value_norm k.HEAD_SET_COOKIE

/-- A request section with an absolute URI, `GET http://A.b:80/P?q#f HTTP/1.1`;
the normalized host and path are in lower case. -/
def absolute_request : NHttpMsgRequest where
  get_version := .data [72, 84, 84, 80, 47, 49, 46, 49]
  get_method := .data [71, 69, 84]
  get_uri := .data [104, 116, 116, 112, 58, 47, 47, 65, 46, 98, 58, 56, 48, 47, 80, 63, 113, 35,
    102]
  get_uri_norm_legacy := .data [47, 112, 63, 113]
  get_nhttp_uri := some {
    get_scheme := .data [104, 116, 116, 112]
    get_host := .data [65, 46, 98]
    get_norm_host := .data [97, 46, 98]
    get_port := .data [56, 48]
    get_path := .data [47, 80]
    get_norm_path := .data [47, 112]
    get_query := .data [113]
    get_norm_query := .data [113]
    get_fragment := .data [102]
    get_norm_fragment := .data [102] }

/-- A client header section for the worked scenarios: the block
`Cookie: a=1` with the cookie value under the Cookie header id (14). -/
def scenario_header : NHttpMsgHeader where
  get_headers := .data [67, 111, 111, 107, 105, 101, 58, 32, 97, 61, 49]
  get_header_value_norm := fun header_id =>
    if header_id = 14 then .data [97, 61, 49] else .FIELD_NULL

/-- A server trailer section for the worked scenarios: the block `X: y`, with the
value under the header id 60. -/
def scenario_trailer : NHttpMsgTrailer where
  get_headers := .data [88, 58, 32, 121]
  get_header_value_norm := fun header_id =>
    if header_id = 60 then .data [121] else .FIELD_NULL

/-- A transaction that holds a request with an absolute URI, a status section,
the client header section, the server trailer section and a body section. -/
def full_transaction : NHttpTransaction where
  get_request := some absolute_request
  get_status := some scenario_status
  get_header := fun source_id =>
    match source_id with
    | .SRC_CLIENT => some scenario_header
    | .SRC_SERVER => none
  get_trailer := fun source_id =>
    match source_id with
    | .SRC_CLIENT => none
    | .SRC_SERVER => some scenario_trailer
  get_body := some { get_detect_buf := .data [104, 105] }

/-! Reading and writing the per-direction arrays. -/

/-- Reading the entry just written. -/
theorem PerSource.get_set_same {α : Type} (a : PerSource α) (i : SourceId) (v : α) :
    (a.set i v).get i = v := by
  cases i <;> rfl

/-- Writing one entry leaves the other entry as it was. -/
theorem PerSource.get_set_other {α : Type} (a : PerSource α) (i j : SourceId) (v : α)
    (h : j ≠ i) : (a.set i v).get j = a.get j := by
  cases i <;> cases j <;> first | rfl | exact absurd rfl h

/-- Writing back the value an entry holds changes nothing. -/
theorem PerSource.set_get_same {α : Type} (a : PerSource α) (i : SourceId) :
    a.set i (a.get i) = a := by
  cases i <;> rfl

/-- Distinct case labels: the uncompressed mode is neither compressed mode. -/
theorem NHttpEnums.compression_labels_ne (k : NHttpEnums) (hk : k.case_labels_distinct) :
    k.CMP_NONE ≠ k.CMP_GZIP ∧ k.CMP_NONE ≠ k.CMP_DEFLATE := by
  have hd := hk.1
  simp [NHttpEnums.compression_labels] at hd
  exact ⟨hd.1.1, hd.1.2⟩

/-- The local `depth` is the maximum of the two budgets of the direction. -/
theorem update_depth.depth_eq_max (source_id : SourceId) (sd : NHttpFlowData) :
    update_depth.depth source_id sd =
      max (sd.file_depth_remaining.get source_id) (sd.detect_depth_remaining.get source_id) := by
  unfold update_depth.depth
  split_ifs with h
  · exact (max_eq_left h).symm
  · exact (max_eq_right (le_of_lt (not_le.mp h))).symm

/-- What `update_depth` leaves behind in uncompressed mode. -/
theorem update_depth.none_run (k : NHttpEnums) (self : NHttpMsgSection) (sd : NHttpFlowData)
    (h : sd.compression.get self.source_id = k.CMP_NONE) :
    update_depth k self sd = (.returned (), { sd with
      section_size_target := sd.section_size_target.set self.source_id
        (min (update_depth.depth self.source_id sd) k.DATA_BLOCK_SIZE)
      section_size_max := sd.section_size_max.set self.source_id
        (min (update_depth.depth self.source_id sd) k.FINAL_BLOCK_SIZE) }) := by
  have hmin : ∀ a b : Int, (if a ≤ b then a else b) = min a b := by
    intro a b
    split_ifs with hab
    · exact (min_eq_left hab).symm
    · exact (min_eq_right (le_of_lt (not_le.mp hab))).symm
  simp only [update_depth, h, if_true, hmin]
  rfl

/-- What `update_depth` leaves behind in a compressed mode. -/
theorem update_depth.gzip_run (k : NHttpEnums) (self : NHttpMsgSection) (sd : NHttpFlowData)
    (hn : sd.compression.get self.source_id ≠ k.CMP_NONE)
    (h : sd.compression.get self.source_id = k.CMP_GZIP ∨
      sd.compression.get self.source_id = k.CMP_DEFLATE) :
    update_depth k self sd = (.returned (), { sd with
      section_size_target := sd.section_size_target.set self.source_id
        (if update_depth.depth self.source_id sd > 0 then k.GZIP_BLOCK_SIZE else 0)
      section_size_max := sd.section_size_max.set self.source_id
        (if update_depth.depth self.source_id sd > 0 then k.FINAL_GZIP_BLOCK_SIZE else 0) }) := by
  simp only [update_depth, if_neg hn, if_pos h]
  rfl

/-- What `update_depth` does on an unrecognized compression value. -/
theorem update_depth.default_run (k : NHttpEnums) (self : NHttpMsgSection) (sd : NHttpFlowData)
    (hn : sd.compression.get self.source_id ≠ k.CMP_NONE)
    (hg : sd.compression.get self.source_id ≠ k.CMP_GZIP)
    (hd : sd.compression.get self.source_id ≠ k.CMP_DEFLATE) :
    update_depth k self sd = (.assert_failed, sd) := by
  simp [update_depth, hn, hg, hd]

/-! Depth-adaptive sizing. -/

/-- C1: in uncompressed mode `update_depth` returns and sets, for the section's
direction, `section_size_target = min(depth, DATA_BLOCK_SIZE)` and
`section_size_max = min(depth, FINAL_BLOCK_SIZE)` with
`depth = max(file_depth_remaining, detect_depth_remaining)`; a state with the two
budgets swapped gets the same two values. -/
theorem update_depth_none_sizes (k : NHttpEnums) (self : NHttpMsgSection) (sd : NHttpFlowData)
    (h : sd.compression.get self.source_id = k.CMP_NONE) :
    (update_depth k self sd).1 = .returned () ∧
    (update_depth k self sd).2.section_size_target.get self.source_id =
      min (max (sd.file_depth_remaining.get self.source_id)
        (sd.detect_depth_remaining.get self.source_id)) k.DATA_BLOCK_SIZE ∧
    (update_depth k self sd).2.section_size_max.get self.source_id =
      min (max (sd.file_depth_remaining.get self.source_id)
        (sd.detect_depth_remaining.get self.source_id)) k.FINAL_BLOCK_SIZE ∧
    ∀ sw : NHttpFlowData, sw.compression.get self.source_id = k.CMP_NONE →
      sw.file_depth_remaining.get self.source_id = sd.detect_depth_remaining.get self.source_id →
      sw.detect_depth_remaining.get self.source_id = sd.file_depth_remaining.get self.source_id →
      (update_depth k self sw).2.section_size_target.get self.source_id =
        (update_depth k self sd).2.section_size_target.get self.source_id ∧
      (update_depth k self sw).2.section_size_max.get self.source_id =
        (update_depth k self sd).2.section_size_max.get self.source_id := by
  refine ⟨?_, ?_, ?_, ?_⟩
  · rw [update_depth.none_run k self sd h]
  · rw [update_depth.none_run k self sd h]
    simp only [PerSource.get_set_same, update_depth.depth_eq_max]
  · rw [update_depth.none_run k self sd h]
    simp only [PerSource.get_set_same, update_depth.depth_eq_max]
  · intro sw hc hf hd
    rw [update_depth.none_run k self sd h, update_depth.none_run k self sw hc]
    simp only [PerSource.get_set_same, update_depth.depth_eq_max, hf, hd, max_comm, and_self]

/-- C1, the worked scenario: file budget 50000, detect budget 200, uncompressed,
`DATA_BLOCK_SIZE` 16384 and `FINAL_BLOCK_SIZE` 1000000 give target 16384 and
max 50000. -/
theorem update_depth_none_sizes_witness :
    (scenario_flow 2 50000 200).compression.get client_section.source_id =
      scenario_enums.CMP_NONE ∧
    (update_depth scenario_enums client_section
      (scenario_flow 2 50000 200)).2.section_size_target.get .SRC_CLIENT = 16384 ∧
    (update_depth scenario_enums client_section
      (scenario_flow 2 50000 200)).2.section_size_max.get .SRC_CLIENT = 50000 := by
  have h := update_depth_none_sizes scenario_enums client_section (scenario_flow 2 50000 200)
    (by decide)
  refine ⟨by decide, ?_, ?_⟩
  · rw [show client_section.source_id = SourceId.SRC_CLIENT from rfl] at h
    rw [h.2.1]
    decide
  · rw [show client_section.source_id = SourceId.SRC_CLIENT from rfl] at h
    rw [h.2.2.1]
    decide

/-- C2: in a compressed mode (Gzip or Deflate) `update_depth` returns and sets, for
the section's direction, `section_size_target = GZIP_BLOCK_SIZE` and
`section_size_max = FINAL_GZIP_BLOCK_SIZE` when
`depth = max(file_depth_remaining, detect_depth_remaining) > 0`, and both to 0
when `depth = 0`; a Gzip state and a Deflate state with the same budgets get the
same two values. -/
theorem update_depth_gzip_sizes (k : NHttpEnums) (self : NHttpMsgSection) (sd : NHttpFlowData)
    (hk : k.case_labels_distinct)
    (h : sd.compression.get self.source_id = k.CMP_GZIP ∨
      sd.compression.get self.source_id = k.CMP_DEFLATE) :
    (update_depth k self sd).1 = .returned () ∧
    (0 < max (sd.file_depth_remaining.get self.source_id)
        (sd.detect_depth_remaining.get self.source_id) →
      (update_depth k self sd).2.section_size_target.get self.source_id = k.GZIP_BLOCK_SIZE ∧
      (update_depth k self sd).2.section_size_max.get self.source_id =
        k.FINAL_GZIP_BLOCK_SIZE) ∧
    (max (sd.file_depth_remaining.get self.source_id)
        (sd.detect_depth_remaining.get self.source_id) = 0 →
      (update_depth k self sd).2.section_size_target.get self.source_id = 0 ∧
      (update_depth k self sd).2.section_size_max.get self.source_id = 0) ∧
    ∀ sd2 : NHttpFlowData,
      (sd2.compression.get self.source_id = k.CMP_GZIP ∨
        sd2.compression.get self.source_id = k.CMP_DEFLATE) →
      sd2.file_depth_remaining.get self.source_id = sd.file_depth_remaining.get self.source_id →
      sd2.detect_depth_remaining.get self.source_id =
        sd.detect_depth_remaining.get self.source_id →
      (update_depth k self sd2).2.section_size_target.get self.source_id =
        (update_depth k self sd).2.section_size_target.get self.source_id ∧
      (update_depth k self sd2).2.section_size_max.get self.source_id =
        (update_depth k self sd).2.section_size_max.get self.source_id := by
  have hne : ∀ s : NHttpFlowData, (s.compression.get self.source_id = k.CMP_GZIP ∨
      s.compression.get self.source_id = k.CMP_DEFLATE) →
      s.compression.get self.source_id ≠ k.CMP_NONE := by
    intro s hs hc
    have hd := NHttpEnums.compression_labels_ne k hk
    rcases hs with hs | hs
    · exact hd.1 (hc.symm.trans hs)
    · exact hd.2 (hc.symm.trans hs)
  refine ⟨?_, ?_, ?_, ?_⟩
  · rw [update_depth.gzip_run k self sd (hne sd h) h]
  · intro hpos
    rw [update_depth.gzip_run k self sd (hne sd h) h]
    simp only [PerSource.get_set_same, update_depth.depth_eq_max, gt_iff_lt, hpos, if_true,
      and_self]
  · intro hz
    rw [update_depth.gzip_run k self sd (hne sd h) h]
    simp only [PerSource.get_set_same, update_depth.depth_eq_max, gt_iff_lt, hz, lt_irrefl,
      if_false, and_self]
  · intro sd2 h2 hf hd
    rw [update_depth.gzip_run k self sd (hne sd h) h,
      update_depth.gzip_run k self sd2 (hne sd2 h2) h2]
    simp only [PerSource.get_set_same, update_depth.depth_eq_max, hf, hd, and_self]

/-- C2, the worked scenario: file budget 50000, detect budget 200, Gzip,
`GZIP_BLOCK_SIZE` 8192 and `FINAL_GZIP_BLOCK_SIZE` 65536 give target 8192 and
max 65536; the Deflate state with the same budgets gets the same. -/
theorem update_depth_gzip_sizes_witness :
    scenario_enums.case_labels_distinct ∧
    (scenario_flow 3 50000 200).compression.get client_section.source_id =
      scenario_enums.CMP_GZIP ∧
    (update_depth scenario_enums client_section
      (scenario_flow 3 50000 200)).2.section_size_target.get .SRC_CLIENT = 8192 ∧
    (update_depth scenario_enums client_section
      (scenario_flow 3 50000 200)).2.section_size_max.get .SRC_CLIENT = 65536 ∧
    (update_depth scenario_enums client_section
      (scenario_flow 4 50000 200)).2.section_size_target.get .SRC_CLIENT = 8192 ∧
    (update_depth scenario_enums client_section
      (scenario_flow 4 50000 200)).2.section_size_max.get .SRC_CLIENT = 65536 := by
  have h := update_depth_gzip_sizes scenario_enums client_section (scenario_flow 3 50000 200)
    (by decide) (Or.inl (by decide))
  rw [show client_section.source_id = SourceId.SRC_CLIENT from rfl] at h
  have hs := h.2.1 (by decide)
  have hd := h.2.2.2 (scenario_flow 4 50000 200) (Or.inr (by decide)) rfl rfl
  exact ⟨by decide, by decide, hs.1, hs.2, hd.1.trans hs.1, hd.2.trans hs.2⟩

/-- C3: in uncompressed mode, with `DATA_BLOCK_SIZE ≤ FINAL_BLOCK_SIZE`, after
`update_depth` the direction's `section_size_target ≤ section_size_max`, both are
at most `depth = max(file_depth_remaining, detect_depth_remaining)`, and
`section_size_target = depth` whenever `depth ≤ DATA_BLOCK_SIZE`. -/
theorem update_depth_none_bounds (k : NHttpEnums) (self : NHttpMsgSection) (sd : NHttpFlowData)
    (hk : k.DATA_BLOCK_SIZE ≤ k.FINAL_BLOCK_SIZE)
    (h : sd.compression.get self.source_id = k.CMP_NONE) :
    (update_depth k self sd).2.section_size_target.get self.source_id ≤
      (update_depth k self sd).2.section_size_max.get self.source_id ∧
    (update_depth k self sd).2.section_size_target.get self.source_id ≤
      max (sd.file_depth_remaining.get self.source_id)
        (sd.detect_depth_remaining.get self.source_id) ∧
    (update_depth k self sd).2.section_size_max.get self.source_id ≤
      max (sd.file_depth_remaining.get self.source_id)
        (sd.detect_depth_remaining.get self.source_id) ∧
    (max (sd.file_depth_remaining.get self.source_id)
        (sd.detect_depth_remaining.get self.source_id) ≤ k.DATA_BLOCK_SIZE →
      (update_depth k self sd).2.section_size_target.get self.source_id =
        max (sd.file_depth_remaining.get self.source_id)
          (sd.detect_depth_remaining.get self.source_id)) := by
  rw [update_depth.none_run k self sd h]
  simp only [PerSource.get_set_same, update_depth.depth_eq_max]
  exact ⟨min_le_min_left _ hk, min_le_left _ _, min_le_left _ _, fun hd => min_eq_left hd⟩

/-- C3 at a concrete state: budgets 50000 and 200 with block sizes 16384 and
1000000; and budgets 300 and 200, where the depth 300 is below `DATA_BLOCK_SIZE`
and the target is the depth itself. -/
theorem update_depth_none_bounds_witness :
    scenario_enums.DATA_BLOCK_SIZE ≤ scenario_enums.FINAL_BLOCK_SIZE ∧
    (scenario_flow 2 300 200).compression.get client_section.source_id =
      scenario_enums.CMP_NONE ∧
    (update_depth scenario_enums client_section
      (scenario_flow 2 300 200)).2.section_size_target.get .SRC_CLIENT ≤
    (update_depth scenario_enums client_section
      (scenario_flow 2 300 200)).2.section_size_max.get .SRC_CLIENT ∧
    (update_depth scenario_enums client_section
      (scenario_flow 2 300 200)).2.section_size_target.get .SRC_CLIENT = 300 := by
  have h := update_depth_none_bounds scenario_enums client_section (scenario_flow 2 300 200)
    (by decide) (by decide)
  rw [show client_section.source_id = SourceId.SRC_CLIENT from rfl] at h
  refine ⟨by decide, by decide, h.1, ?_⟩
  rw [h.2.2.2 (by decide)]
  decide

/-- C4: when both depth budgets of the section's direction are 0, `update_depth`
returns with `section_size_target = 0` and `section_size_max = 0` for that
direction in each of the three compression modes. The block sizes of the
uncompressed mode are taken to be non-negative. -/
theorem update_depth_zero_depth (k : NHttpEnums) (self : NHttpMsgSection) (sd : NHttpFlowData)
    (hdata : 0 ≤ k.DATA_BLOCK_SIZE) (hfinal : 0 ≤ k.FINAL_BLOCK_SIZE)
    (hf : sd.file_depth_remaining.get self.source_id = 0)
    (hd : sd.detect_depth_remaining.get self.source_id = 0)
    (hc : sd.compression.get self.source_id = k.CMP_NONE ∨
      sd.compression.get self.source_id = k.CMP_GZIP ∨
      sd.compression.get self.source_id = k.CMP_DEFLATE) :
    (update_depth k self sd).1 = .returned () ∧
    (update_depth k self sd).2.section_size_target.get self.source_id = 0 ∧
    (update_depth k self sd).2.section_size_max.get self.source_id = 0 := by
  have hdepth : update_depth.depth self.source_id sd = 0 := by
    rw [update_depth.depth_eq_max, hf, hd]
    rfl
  by_cases hn : sd.compression.get self.source_id = k.CMP_NONE
  · rw [update_depth.none_run k self sd hn]
    simp only [PerSource.get_set_same, hdepth]
    exact ⟨trivial, min_eq_left hdata, min_eq_left hfinal⟩
  · have hg : sd.compression.get self.source_id = k.CMP_GZIP ∨
        sd.compression.get self.source_id = k.CMP_DEFLATE := hc.resolve_left hn
    rw [update_depth.gzip_run k self sd hn hg]
    simp only [PerSource.get_set_same, hdepth, gt_iff_lt, lt_irrefl, if_false, and_self]

/-- C4 at concrete states: both client budgets 0 in the uncompressed, the Gzip
and the Deflate mode; the earlier size values 11 and 21 are overwritten by 0. -/
theorem update_depth_zero_depth_witness :
    (0 ≤ scenario_enums.DATA_BLOCK_SIZE ∧ 0 ≤ scenario_enums.FINAL_BLOCK_SIZE) ∧
    (scenario_flow 2 0 0).section_size_target.get .SRC_CLIENT = 11 ∧
    (update_depth scenario_enums client_section
      (scenario_flow 2 0 0)).2.section_size_target.get .SRC_CLIENT = 0 ∧
    (update_depth scenario_enums client_section
      (scenario_flow 2 0 0)).2.section_size_max.get .SRC_CLIENT = 0 ∧
    (update_depth scenario_enums client_section
      (scenario_flow 3 0 0)).2.section_size_target.get .SRC_CLIENT = 0 ∧
    (update_depth scenario_enums client_section
      (scenario_flow 4 0 0)).2.section_size_max.get .SRC_CLIENT = 0 :=
  ⟨⟨by decide, by decide⟩, rfl,
    (update_depth_zero_depth scenario_enums client_section (scenario_flow 2 0 0)
      (by decide) (by decide) rfl rfl (Or.inl rfl)).2.1,
    (update_depth_zero_depth scenario_enums client_section (scenario_flow 2 0 0)
      (by decide) (by decide) rfl rfl (Or.inl rfl)).2.2,
    (update_depth_zero_depth scenario_enums client_section (scenario_flow 3 0 0)
      (by decide) (by decide) rfl rfl (Or.inr (Or.inl rfl))).2.1,
    (update_depth_zero_depth scenario_enums client_section (scenario_flow 4 0 0)
      (by decide) (by decide) rfl rfl (Or.inr (Or.inr rfl))).2.2⟩

/-- C5: `update_depth` ends in the failed assertion exactly when the compression
value of the section's direction is none of `CMP_NONE`, `CMP_GZIP`, `CMP_DEFLATE`;
then the session state is left as it was; and for each of the three modes it
returns, whatever the depth budgets are. -/
theorem update_depth_fatal_iff (k : NHttpEnums) (self : NHttpMsgSection) (sd : NHttpFlowData) :
    ((update_depth k self sd).1 = .assert_failed ↔
      (sd.compression.get self.source_id ≠ k.CMP_NONE ∧
        sd.compression.get self.source_id ≠ k.CMP_GZIP ∧
        sd.compression.get self.source_id ≠ k.CMP_DEFLATE)) ∧
    ((update_depth k self sd).1 = .assert_failed → (update_depth k self sd).2 = sd) ∧
    ((sd.compression.get self.source_id = k.CMP_NONE ∨
        sd.compression.get self.source_id = k.CMP_GZIP ∨
        sd.compression.get self.source_id = k.CMP_DEFLATE) →
      (update_depth k self sd).1 = .returned ()) := by
  by_cases hn : sd.compression.get self.source_id = k.CMP_NONE
  · rw [update_depth.none_run k self sd hn]
    simp [hn]
  · by_cases hg : sd.compression.get self.source_id = k.CMP_GZIP ∨
        sd.compression.get self.source_id = k.CMP_DEFLATE
    · rw [update_depth.gzip_run k self sd hn hg]
      simp only [reduceCtorEq, false_iff, not_and, not_not, false_implies, implies_true,
        and_true, true_and]
      intro _ hg2
      exact hg.resolve_left hg2
    · rw [not_or] at hg
      rw [update_depth.default_run k self sd hn hg.1 hg.2]
      simp [hn, hg.1, hg.2]

/-- C5 at concrete states: the compression value 9 is none of the three modes
(2, 3, 4); the run fails and the state is unchanged, while with the value 3 (Gzip)
and negative budgets the run returns. -/
theorem update_depth_fatal_iff_witness :
    (update_depth scenario_enums client_section (scenario_flow 9 50000 200)).1 =
      .assert_failed ∧
    (update_depth scenario_enums client_section (scenario_flow 9 50000 200)).2 =
      scenario_flow 9 50000 200 ∧
    (update_depth scenario_enums client_section (scenario_flow 3 (-1) (-7))).1 =
      .returned () := by
  have h := update_depth_fatal_iff scenario_enums client_section (scenario_flow 9 50000 200)
  have hf : (update_depth scenario_enums client_section (scenario_flow 9 50000 200)).1 =
      .assert_failed := h.1.2 ⟨by decide, by decide, by decide⟩
  exact ⟨hf, h.2.1 hf,
    (update_depth_fatal_iff scenario_enums client_section (scenario_flow 3 (-1) (-7))).2.2
      (Or.inr (Or.inl rfl))⟩

/-- C6: `update_depth` changes only `section_size_target` and `section_size_max` of
the section's own direction: the resulting state is the old one with those two
entries replaced, so the other direction's size fields, both directions' depth
budgets and compression modes and all other members are unchanged; and two
session states that agree on the compression mode and the two depth budgets of
the section's direction end the same way and, when the run returns, hold the same
target and max. -/
theorem update_depth_frame (k : NHttpEnums) (self : NHttpMsgSection) (sd : NHttpFlowData) :
    (update_depth k self sd).2 = { sd with
      section_size_target := sd.section_size_target.set self.source_id
        ((update_depth k self sd).2.section_size_target.get self.source_id)
      section_size_max := sd.section_size_max.set self.source_id
        ((update_depth k self sd).2.section_size_max.get self.source_id) } ∧
    (∀ other : SourceId, other ≠ self.source_id →
      (update_depth k self sd).2.section_size_target.get other =
        sd.section_size_target.get other ∧
      (update_depth k self sd).2.section_size_max.get other = sd.section_size_max.get other) ∧
    ((update_depth k self sd).2.file_depth_remaining = sd.file_depth_remaining ∧
      (update_depth k self sd).2.detect_depth_remaining = sd.detect_depth_remaining ∧
      (update_depth k self sd).2.compression = sd.compression ∧
      (update_depth k self sd).2.tcp_close = sd.tcp_close ∧
      (update_depth k self sd).2.infractions = sd.infractions ∧
      (update_depth k self sd).2.events = sd.events ∧
      (update_depth k self sd).2.version_id = sd.version_id ∧
      (update_depth k self sd).2.method_id = sd.method_id ∧
      (update_depth k self sd).2.status_code_num = sd.status_code_num) ∧
    (∀ sd2 : NHttpFlowData,
      sd2.compression.get self.source_id = sd.compression.get self.source_id →
      sd2.file_depth_remaining.get self.source_id = sd.file_depth_remaining.get self.source_id →
      sd2.detect_depth_remaining.get self.source_id =
        sd.detect_depth_remaining.get self.source_id →
      (update_depth k self sd2).1 = (update_depth k self sd).1 ∧
      ((update_depth k self sd).1 = .returned () →
        (update_depth k self sd2).2.section_size_target.get self.source_id =
          (update_depth k self sd).2.section_size_target.get self.source_id ∧
        (update_depth k self sd2).2.section_size_max.get self.source_id =
          (update_depth k self sd).2.section_size_max.get self.source_id)) := by
  have hdepth : ∀ sd2 : NHttpFlowData,
      sd2.file_depth_remaining.get self.source_id = sd.file_depth_remaining.get self.source_id →
      sd2.detect_depth_remaining.get self.source_id =
        sd.detect_depth_remaining.get self.source_id →
      update_depth.depth self.source_id sd2 = update_depth.depth self.source_id sd := by
    intro sd2 hf hd
    simp only [update_depth.depth, hf, hd]
  by_cases hn : sd.compression.get self.source_id = k.CMP_NONE
  · rw [update_depth.none_run k self sd hn]
    refine ⟨?_, ?_, ?_, ?_⟩
    · simp only [PerSource.get_set_same]
    · intro other ho
      simp only [PerSource.get_set_other _ _ _ _ ho, and_self]
    · simp only [and_self]
    · intro sd2 hc hf hd
      rw [update_depth.none_run k self sd2 (hc.trans hn)]
      simp only [PerSource.get_set_same, hdepth sd2 hf hd, and_self, implies_true]
  · by_cases hg : sd.compression.get self.source_id = k.CMP_GZIP ∨
        sd.compression.get self.source_id = k.CMP_DEFLATE
    · rw [update_depth.gzip_run k self sd hn hg]
      refine ⟨?_, ?_, ?_, ?_⟩
      · simp only [PerSource.get_set_same]
      · intro other ho
        simp only [PerSource.get_set_other _ _ _ _ ho, and_self]
      · simp only [and_self]
      · intro sd2 hc hf hd
        rw [update_depth.gzip_run k self sd2 (hc ▸ hn) (hc ▸ hg)]
        simp only [PerSource.get_set_same, hdepth sd2 hf hd, and_self, implies_true]
    · rw [not_or] at hg
      rw [update_depth.default_run k self sd hn hg.1 hg.2]
      refine ⟨?_, ?_, ?_, ?_⟩
      · simp only [PerSource.set_get_same]
      · intro other _
        exact ⟨rfl, rfl⟩
      · simp only [and_self]
      · intro sd2 hc hf hd
        rw [update_depth.default_run k self sd2 (hc ▸ hn) (hc ▸ hg.1) (hc ▸ hg.2)]
        simp only [reduceCtorEq, false_implies, and_self]

/-- C6 at concrete states: a second state that agrees with the scenario state on
the client compression and budgets and differs everywhere else holds the same
client target and max after the run, and the server entries (12 and 22) of the
scenario state are untouched. -/
theorem update_depth_frame_witness :
    (update_depth scenario_enums client_section { scenario_flow 2 50000 200 with
        file_depth_remaining := ⟨50000, 1⟩
        compression := ⟨2, 3⟩
        section_size_target := ⟨77, 78⟩
        section_size_max := ⟨87, 88⟩
        method_id := 5 }).2.section_size_target.get .SRC_CLIENT =
      (update_depth scenario_enums client_section
        (scenario_flow 2 50000 200)).2.section_size_target.get .SRC_CLIENT ∧
    (update_depth scenario_enums client_section
      (scenario_flow 2 50000 200)).2.section_size_target.get .SRC_SERVER = 12 ∧
    (update_depth scenario_enums client_section
      (scenario_flow 2 50000 200)).2.section_size_max.get .SRC_SERVER = 22 := by
  have h := update_depth_frame scenario_enums client_section (scenario_flow 2 50000 200)
  exact ⟨((h.2.2.2 _ rfl rfl rfl).2 (by decide)).1,
    (h.2.1 .SRC_SERVER (by decide)).1, (h.2.1 .SRC_SERVER (by decide)).2⟩

/-! Detection-buffer dispatch: what each case of the `switch` returns. -/

/-- The case `NHTTP_BUFFER_CLIENT_BODY` of the dispatch. -/
theorem get_classic_buffer.client_body (k : NHttpEnums) (self : NHttpMsgSection)
    (t : NHttpTransaction) (sub_id : Nat) :
    get_classic_buffer k self t k.NHTTP_BUFFER_CLIENT_BODY sub_id =
      if self.source_id ≠ .SRC_CLIENT then .returned .FIELD_NULL
      else match t.get_body with
        | some body => .returned body.get_detect_buf
        | none => .returned .FIELD_NULL := by
  simp [get_classic_buffer]

/-- The case `NHTTP_BUFFER_COOKIE` of the dispatch. -/
theorem get_classic_buffer.cookie (k : NHttpEnums) (self : NHttpMsgSection)
    (t : NHttpTransaction) (sub_id : Nat) (hk : k.case_labels_distinct) :
    get_classic_buffer k self t k.NHTTP_BUFFER_COOKIE sub_id =
      match t.get_header self.source_id with
      | none => .returned .FIELD_NULL
      | some header => .returned (header.get_header_value_norm
          (if self.source_id = .SRC_CLIENT then k.HEAD_COOKIE else k.HEAD_SET_COOKIE)) := by
  have hb := hk.2.1
  have hr := List.nodup_reverse.mpr hb
  simp [NHttpEnums.buffer_labels] at hb hr
  simp [get_classic_buffer, hb, hr]

/-- The case `NHTTP_BUFFER_RAW_COOKIE` of the dispatch. -/
theorem get_classic_buffer.raw_cookie (k : NHttpEnums) (self : NHttpMsgSection)
    (t : NHttpTransaction) (sub_id : Nat) (hk : k.case_labels_distinct) :
    get_classic_buffer k self t k.NHTTP_BUFFER_RAW_COOKIE sub_id =
      match t.get_header self.source_id with
      | none => .returned .FIELD_NULL
      | some header => .returned (header.get_header_value_norm
          (if self.source_id = .SRC_CLIENT then k.HEAD_COOKIE else k.HEAD_SET_COOKIE)) := by
  have hb := hk.2.1
  have hr := List.nodup_reverse.mpr hb
  simp [NHttpEnums.buffer_labels] at hb hr
  simp [get_classic_buffer, hb, hr]

/-- The case `NHTTP_BUFFER_HEADER` of the dispatch. -/
theorem get_classic_buffer.header (k : NHttpEnums) (self : NHttpMsgSection)
    (t : NHttpTransaction) (sub_id : Nat) (hk : k.case_labels_distinct) :
    get_classic_buffer k self t k.NHTTP_BUFFER_HEADER sub_id =
      match t.get_header self.source_id with
      | none => .returned .FIELD_NULL
      | some header =>
        if sub_id = 0 then .returned header.get_headers
        else .returned (header.get_header_value_norm sub_id) := by
  have hb := hk.2.1
  have hr := List.nodup_reverse.mpr hb
  simp [NHttpEnums.buffer_labels] at hb hr
  simp [get_classic_buffer, hb, hr]
  rfl

/-- The case `NHTTP_BUFFER_TRAILER` of the dispatch. -/
theorem get_classic_buffer.trailer (k : NHttpEnums) (self : NHttpMsgSection)
    (t : NHttpTransaction) (sub_id : Nat) (hk : k.case_labels_distinct) :
    get_classic_buffer k self t k.NHTTP_BUFFER_TRAILER sub_id =
      match t.get_trailer self.source_id with
      | none => .returned .FIELD_NULL
      | some header =>
        if sub_id = 0 then .returned header.get_headers
        else .returned (header.get_header_value_norm sub_id) := by
  have hb := hk.2.1
  have hr := List.nodup_reverse.mpr hb
  simp [NHttpEnums.buffer_labels] at hb hr
  simp [get_classic_buffer, hb, hr]
  rfl

/-- The case `NHTTP_BUFFER_METHOD` of the dispatch. -/
theorem get_classic_buffer.method (k : NHttpEnums) (self : NHttpMsgSection)
    (t : NHttpTransaction) (sub_id : Nat) (hk : k.case_labels_distinct) :
    get_classic_buffer k self t k.NHTTP_BUFFER_METHOD sub_id =
      match t.get_request with
      | some request => .returned request.get_method
      | none => .returned .FIELD_NULL := by
  have hb := hk.2.1
  have hr := List.nodup_reverse.mpr hb
  simp [NHttpEnums.buffer_labels] at hb hr
  simp [get_classic_buffer, hb, hr]

/-- The case `NHTTP_BUFFER_RAW_HEADER` of the dispatch. -/
theorem get_classic_buffer.raw_header (k : NHttpEnums) (self : NHttpMsgSection)
    (t : NHttpTransaction) (sub_id : Nat) (hk : k.case_labels_distinct) :
    get_classic_buffer k self t k.NHTTP_BUFFER_RAW_HEADER sub_id =
      match t.get_header self.source_id with
      | some header => .returned header.get_headers
      | none => .returned .FIELD_NULL := by
  have hb := hk.2.1
  have hr := List.nodup_reverse.mpr hb
  simp [NHttpEnums.buffer_labels] at hb hr
  simp [get_classic_buffer, hb, hr]

/-- The case `NHTTP_BUFFER_STAT_CODE` of the dispatch. -/
theorem get_classic_buffer.stat_code (k : NHttpEnums) (self : NHttpMsgSection)
    (t : NHttpTransaction) (sub_id : Nat) (hk : k.case_labels_distinct) :
    get_classic_buffer k self t k.NHTTP_BUFFER_STAT_CODE sub_id =
      match t.get_status with
      | some status => .returned status.get_status_code
      | none => .returned .FIELD_NULL := by
  have hb := hk.2.1
  have hr := List.nodup_reverse.mpr hb
  simp [NHttpEnums.buffer_labels] at hb hr
  simp [get_classic_buffer, hb, hr]

/-- The case `NHTTP_BUFFER_STAT_MSG` of the dispatch. -/
theorem get_classic_buffer.stat_msg (k : NHttpEnums) (self : NHttpMsgSection)
    (t : NHttpTransaction) (sub_id : Nat) (hk : k.case_labels_distinct) :
    get_classic_buffer k self t k.NHTTP_BUFFER_STAT_MSG sub_id =
      match t.get_status with
      | some status => .returned status.get_reason_phrase
      | none => .returned .FIELD_NULL := by
  have hb := hk.2.1
  have hr := List.nodup_reverse.mpr hb
  simp [NHttpEnums.buffer_labels] at hb hr
  simp [get_classic_buffer, hb, hr]

/-- The case `NHTTP_BUFFER_RAW_URI` of the dispatch. -/
theorem get_classic_buffer.raw_uri (k : NHttpEnums) (self : NHttpMsgSection)
    (t : NHttpTransaction) (sub_id : Nat) (hk : k.case_labels_distinct) :
    get_classic_buffer k self t k.NHTTP_BUFFER_RAW_URI sub_id =
      match t.get_request with
      | none => .returned .FIELD_NULL
      | some request =>
        if sub_id = 0 then .returned request.get_uri
        else match request.get_nhttp_uri with
          | none => .returned .FIELD_NULL
          | some uri => get_classic_buffer.uri_component k true uri sub_id := by
  have hb := hk.2.1
  have hr := List.nodup_reverse.mpr hb
  simp [NHttpEnums.buffer_labels] at hb hr
  simp [get_classic_buffer, hb, hr]

/-- The case `NHTTP_BUFFER_URI` of the dispatch. -/
theorem get_classic_buffer.uri (k : NHttpEnums) (self : NHttpMsgSection)
    (t : NHttpTransaction) (sub_id : Nat) (hk : k.case_labels_distinct) :
    get_classic_buffer k self t k.NHTTP_BUFFER_URI sub_id =
      match t.get_request with
      | none => .returned .FIELD_NULL
      | some request =>
        if sub_id = 0 then .returned request.get_uri_norm_legacy
        else match request.get_nhttp_uri with
          | none => .returned .FIELD_NULL
          | some uri => get_classic_buffer.uri_component k false uri sub_id := by
  have hb := hk.2.1
  have hr := List.nodup_reverse.mpr hb
  simp [NHttpEnums.buffer_labels] at hb hr
  simp [get_classic_buffer, hb, hr]

/-- The case `NHTTP_BUFFER_VERSION` of the dispatch. -/
theorem get_classic_buffer.version (k : NHttpEnums) (self : NHttpMsgSection)
    (t : NHttpTransaction) (sub_id : Nat) (hk : k.case_labels_distinct) :
    get_classic_buffer k self t k.NHTTP_BUFFER_VERSION sub_id =
      match (if self.source_id = .SRC_CLIENT then
          t.get_request.map NHttpMsgRequest.toNHttpMsgStart
        else t.get_status.map NHttpMsgStatus.toNHttpMsgStart) with
      | some start => .returned start.get_version
      | none => .returned .FIELD_NULL := by
  have hb := hk.2.1
  have hr := List.nodup_reverse.mpr hb
  simp [NHttpEnums.buffer_labels] at hb hr
  simp [get_classic_buffer, hb, hr]

/-- The case `NHTTP_BUFFER_RAW_TRAILER` of the dispatch. -/
theorem get_classic_buffer.raw_trailer (k : NHttpEnums) (self : NHttpMsgSection)
    (t : NHttpTransaction) (sub_id : Nat) (hk : k.case_labels_distinct) :
    get_classic_buffer k self t k.NHTTP_BUFFER_RAW_TRAILER sub_id =
      match t.get_trailer self.source_id with
      | some trailer => .returned trailer.get_headers
      | none => .returned .FIELD_NULL := by
  have hb := hk.2.1
  have hr := List.nodup_reverse.mpr hb
  simp [NHttpEnums.buffer_labels] at hb hr
  simp [get_classic_buffer, hb, hr]

/-- The `default:` case of the dispatch: an id that is no case label. -/
theorem get_classic_buffer.undeclared (k : NHttpEnums) (self : NHttpMsgSection)
    (t : NHttpTransaction) (id sub_id : Nat) (h : id ∉ k.buffer_labels) :
    get_classic_buffer k self t id sub_id = .assert_failed := by
  simp [NHttpEnums.buffer_labels] at h
  simp [get_classic_buffer, h]

/-- The component `switch` falls through to the assertion on an id that is no
component. -/
theorem get_classic_buffer.uri_component_unknown (k : NHttpEnums) (raw : Bool) (uri : NHttpUri)
    (sub_id : Nat) (h : sub_id ∉ k.uri_component_labels) :
    get_classic_buffer.uri_component k raw uri sub_id = .assert_failed := by
  simp [NHttpEnums.uri_component_labels] at h
  simp [get_classic_buffer.uri_component, h]

/-! Detection-buffer dispatch: absence and fatal cases. -/

/-- C7, as the code has it: `get_classic_buffer` does not look at the section's
direction for METHOD, STAT_CODE and STAT_MSG. For a section of either direction
METHOD is the absent Field when the transaction has no request section and the
request section's method field when it has one; STAT_CODE and STAT_MSG are the
absent Field when the transaction has no status section and the status section's
status-code and reason-phrase fields when it has one; and any two sections on the
same transaction get the same answer. -/
theorem get_classic_buffer_method_status_by_transaction (k : NHttpEnums)
    (self : NHttpMsgSection) (t : NHttpTransaction) (sub_id : Nat)
    (hk : k.case_labels_distinct) :
    (t.get_request = none →
      get_classic_buffer k self t k.NHTTP_BUFFER_METHOD sub_id = .returned .FIELD_NULL) ∧
    (∀ request : NHttpMsgRequest, t.get_request = some request →
      get_classic_buffer k self t k.NHTTP_BUFFER_METHOD sub_id =
        .returned request.get_method) ∧
    (t.get_status = none →
      get_classic_buffer k self t k.NHTTP_BUFFER_STAT_CODE sub_id = .returned .FIELD_NULL ∧
      get_classic_buffer k self t k.NHTTP_BUFFER_STAT_MSG sub_id = .returned .FIELD_NULL) ∧
    (∀ status : NHttpMsgStatus, t.get_status = some status →
      get_classic_buffer k self t k.NHTTP_BUFFER_STAT_CODE sub_id =
        .returned status.get_status_code ∧
      get_classic_buffer k self t k.NHTTP_BUFFER_STAT_MSG sub_id =
        .returned status.get_reason_phrase) ∧
    (∀ other : NHttpMsgSection,
      get_classic_buffer k other t k.NHTTP_BUFFER_METHOD sub_id =
        get_classic_buffer k self t k.NHTTP_BUFFER_METHOD sub_id ∧
      get_classic_buffer k other t k.NHTTP_BUFFER_STAT_CODE sub_id =
        get_classic_buffer k self t k.NHTTP_BUFFER_STAT_CODE sub_id ∧
      get_classic_buffer k other t k.NHTTP_BUFFER_STAT_MSG sub_id =
        get_classic_buffer k self t k.NHTTP_BUFFER_STAT_MSG sub_id) := by
  refine ⟨?_, ?_, ?_, ?_, ?_⟩
  · intro h
    rw [get_classic_buffer.method k self t sub_id hk, h]
  · intro request h
    rw [get_classic_buffer.method k self t sub_id hk, h]
  · intro h
    rw [get_classic_buffer.stat_code k self t sub_id hk,
      get_classic_buffer.stat_msg k self t sub_id hk, h]
    exact ⟨rfl, rfl⟩
  · intro status h
    rw [get_classic_buffer.stat_code k self t sub_id hk,
      get_classic_buffer.stat_msg k self t sub_id hk, h]
    exact ⟨rfl, rfl⟩
  · intro other
    rw [get_classic_buffer.method k self t sub_id hk,
      get_classic_buffer.method k other t sub_id hk,
      get_classic_buffer.stat_code k self t sub_id hk,
      get_classic_buffer.stat_code k other t sub_id hk,
      get_classic_buffer.stat_msg k self t sub_id hk,
      get_classic_buffer.stat_msg k other t sub_id hk]
    exact ⟨rfl, rfl, rfl⟩

/-- C7, as the code has it, at concrete transactions: on the empty transaction a
server-direction section gets the absent Field for METHOD; on the transaction
that holds the request and the status section the same section gets the method
`GET`. -/
theorem get_classic_buffer_method_status_by_transaction_witness :
    scenario_enums.case_labels_distinct ∧
    get_classic_buffer scenario_enums server_section empty_transaction
      scenario_enums.NHTTP_BUFFER_METHOD 0 = .returned .FIELD_NULL ∧
    get_classic_buffer scenario_enums server_section request_status_transaction
      scenario_enums.NHTTP_BUFFER_METHOD 0 = .returned (.data [71, 69, 84]) :=
  ⟨by decide,
    (get_classic_buffer_method_status_by_transaction scenario_enums server_section
      empty_transaction 0 (by decide)).1 rfl,
    (get_classic_buffer_method_status_by_transaction scenario_enums server_section
      request_status_transaction 0 (by decide)).2.1 scenario_request rfl⟩

/-- C7 as stated fails: on a transaction that holds a request section and a status
section, a server-direction section gets the method `GET` for METHOD, and a
client-direction section gets `200` for STAT_CODE and `OK` for STAT_MSG; none of
them is the absent Field. -/
theorem get_classic_buffer_direction_counterexample :
    server_section.source_id = .SRC_SERVER ∧
    get_classic_buffer scenario_enums server_section request_status_transaction
      scenario_enums.NHTTP_BUFFER_METHOD 0 = .returned (.data [71, 69, 84]) ∧
    get_classic_buffer scenario_enums server_section request_status_transaction
      scenario_enums.NHTTP_BUFFER_METHOD 0 ≠ .returned .FIELD_NULL ∧
    client_section.source_id = .SRC_CLIENT ∧
    get_classic_buffer scenario_enums client_section request_status_transaction
      scenario_enums.NHTTP_BUFFER_STAT_CODE 0 = .returned (.data [50, 48, 48]) ∧
    get_classic_buffer scenario_enums client_section request_status_transaction
      scenario_enums.NHTTP_BUFFER_STAT_CODE 0 ≠ .returned .FIELD_NULL ∧
    get_classic_buffer scenario_enums client_section request_status_transaction
      scenario_enums.NHTTP_BUFFER_STAT_MSG 0 = .returned (.data [79, 75]) ∧
    get_classic_buffer scenario_enums client_section request_status_transaction
      scenario_enums.NHTTP_BUFFER_STAT_MSG 0 ≠ .returned .FIELD_NULL := by
  decide

/-- C8: for a section of either direction, STAT_CODE is the absent Field when the
transaction has no status section; when the transaction has a status section,
STAT_CODE is exactly that section's status-code field and STAT_MSG its
reason-phrase field. -/
theorem get_classic_buffer_stat_code (k : NHttpEnums) (self : NHttpMsgSection)
    (t : NHttpTransaction) (sub_id : Nat) (hk : k.case_labels_distinct) :
    (t.get_status = none →
      get_classic_buffer k self t k.NHTTP_BUFFER_STAT_CODE sub_id = .returned .FIELD_NULL) ∧
    (∀ status : NHttpMsgStatus, t.get_status = some status →
      get_classic_buffer k self t k.NHTTP_BUFFER_STAT_CODE sub_id =
        .returned status.get_status_code ∧
      get_classic_buffer k self t k.NHTTP_BUFFER_STAT_MSG sub_id =
        .returned status.get_reason_phrase) := by
  rw [get_classic_buffer.stat_code k self t sub_id hk,
    get_classic_buffer.stat_msg k self t sub_id hk]
  constructor
  · intro h
    rw [h]
  · intro status h
    rw [h]
    exact ⟨rfl, rfl⟩

/-- C8, the worked scenario: while only the request section has attached, the
client-direction section gets the absent Field for STAT_CODE; once the status
section has attached to the same transaction it gets the parsed value `200`. -/
theorem get_classic_buffer_stat_code_witness :
    scenario_enums.case_labels_distinct ∧
    request_only_transaction.get_status = none ∧
    get_classic_buffer scenario_enums client_section request_only_transaction
      scenario_enums.NHTTP_BUFFER_STAT_CODE 0 = .returned .FIELD_NULL ∧
    request_status_transaction.get_request = request_only_transaction.get_request ∧
    request_status_transaction.get_status = some scenario_status ∧
    get_classic_buffer scenario_enums client_section request_status_transaction
      scenario_enums.NHTTP_BUFFER_STAT_CODE 0 = .returned (.data [50, 48, 48]) :=
  ⟨by decide, rfl,
    (get_classic_buffer_stat_code scenario_enums client_section request_only_transaction 0
      (by decide)).1 rfl,
    rfl, rfl,
    ((get_classic_buffer_stat_code scenario_enums client_section request_status_transaction 0
      (by decide)).2 scenario_status rfl).1⟩

/-- C9: for every declared buffer id, every sub-id and either direction,
`get_classic_buffer` returns the absent Field, and does not fail, when the
transaction does not hold the section the id reads from: the body section for
CLIENT_BODY; this direction's header section for COOKIE, RAW_COOKIE, HEADER and
RAW_HEADER; this direction's trailer section for TRAILER and RAW_TRAILER; the
request section for METHOD, RAW_URI and URI; the status section for STAT_CODE
and STAT_MSG; and for VERSION the request section on a client-direction section,
the status section on a server-direction section. -/
theorem get_classic_buffer_absent_without_section (k : NHttpEnums) (self : NHttpMsgSection)
    (t : NHttpTransaction) (sub_id : Nat) (hk : k.case_labels_distinct) :
    (t.get_body = none →
      get_classic_buffer k self t k.NHTTP_BUFFER_CLIENT_BODY sub_id = .returned .FIELD_NULL) ∧
    (t.get_header self.source_id = none →
      get_classic_buffer k self t k.NHTTP_BUFFER_COOKIE sub_id = .returned .FIELD_NULL ∧
      get_classic_buffer k self t k.NHTTP_BUFFER_RAW_COOKIE sub_id = .returned .FIELD_NULL ∧
      get_classic_buffer k self t k.NHTTP_BUFFER_HEADER sub_id = .returned .FIELD_NULL ∧
      get_classic_buffer k self t k.NHTTP_BUFFER_RAW_HEADER sub_id = .returned .FIELD_NULL) ∧
    (t.get_trailer self.source_id = none →
      get_classic_buffer k self t k.NHTTP_BUFFER_TRAILER sub_id = .returned .FIELD_NULL ∧
      get_classic_buffer k self t k.NHTTP_BUFFER_RAW_TRAILER sub_id = .returned .FIELD_NULL) ∧
    (t.get_request = none →
      get_classic_buffer k self t k.NHTTP_BUFFER_METHOD sub_id = .returned .FIELD_NULL ∧
      get_classic_buffer k self t k.NHTTP_BUFFER_RAW_URI sub_id = .returned .FIELD_NULL ∧
      get_classic_buffer k self t k.NHTTP_BUFFER_URI sub_id = .returned .FIELD_NULL) ∧
    (t.get_status = none →
      get_classic_buffer k self t k.NHTTP_BUFFER_STAT_CODE sub_id = .returned .FIELD_NULL ∧
      get_classic_buffer k self t k.NHTTP_BUFFER_STAT_MSG sub_id = .returned .FIELD_NULL) ∧
    (self.source_id = .SRC_CLIENT → t.get_request = none →
      get_classic_buffer k self t k.NHTTP_BUFFER_VERSION sub_id = .returned .FIELD_NULL) ∧
    (self.source_id = .SRC_SERVER → t.get_status = none →
      get_classic_buffer k self t k.NHTTP_BUFFER_VERSION sub_id = .returned .FIELD_NULL) := by
  refine ⟨?_, ?_, ?_, ?_, ?_, ?_, ?_⟩
  · intro h
    rw [get_classic_buffer.client_body, h]
    split_ifs <;> rfl
  · intro h
    rw [get_classic_buffer.cookie k self t sub_id hk,
      get_classic_buffer.raw_cookie k self t sub_id hk,
      get_classic_buffer.header k self t sub_id hk,
      get_classic_buffer.raw_header k self t sub_id hk, h]
    exact ⟨rfl, rfl, rfl, rfl⟩
  · intro h
    rw [get_classic_buffer.trailer k self t sub_id hk,
      get_classic_buffer.raw_trailer k self t sub_id hk, h]
    exact ⟨rfl, rfl⟩
  · intro h
    rw [get_classic_buffer.method k self t sub_id hk,
      get_classic_buffer.raw_uri k self t sub_id hk,
      get_classic_buffer.uri k self t sub_id hk, h]
    exact ⟨rfl, rfl, rfl⟩
  · intro h
    rw [get_classic_buffer.stat_code k self t sub_id hk,
      get_classic_buffer.stat_msg k self t sub_id hk, h]
    exact ⟨rfl, rfl⟩
  · intro hs h
    rw [get_classic_buffer.version k self t sub_id hk, hs, h]
    rfl
  · intro hs h
    rw [get_classic_buffer.version k self t sub_id hk, hs, h]
    rfl

/-- C9 at a concrete transaction: on the empty transaction a server-direction
section gets the absent Field for URI with the sub-id 99 (no URI component),
for COOKIE and for VERSION. -/
theorem get_classic_buffer_absent_without_section_witness :
    scenario_enums.case_labels_distinct ∧
    get_classic_buffer scenario_enums server_section empty_transaction
      scenario_enums.NHTTP_BUFFER_URI 99 = .returned .FIELD_NULL ∧
    get_classic_buffer scenario_enums server_section empty_transaction
      scenario_enums.NHTTP_BUFFER_COOKIE 99 = .returned .FIELD_NULL ∧
    get_classic_buffer scenario_enums server_section empty_transaction
      scenario_enums.NHTTP_BUFFER_VERSION 99 = .returned .FIELD_NULL :=
  ⟨by decide,
    ((get_classic_buffer_absent_without_section scenario_enums server_section empty_transaction
      99 (by decide)).2.2.2.1 rfl).2.2,
    ((get_classic_buffer_absent_without_section scenario_enums server_section empty_transaction
      99 (by decide)).2.1 rfl).1,
    (get_classic_buffer_absent_without_section scenario_enums server_section empty_transaction
      99 (by decide)).2.2.2.2.2.2 rfl rfl⟩

/-- C10, as the code has it: `get_classic_buffer` ends in the failed assertion
whenever the buffer id is not a declared one; and for URI or RAW_URI with a
nonzero sub-id that is none of the six components it ends in the failed assertion
when the transaction has a request section with a URI sub-object, while it
returns the absent Field when the transaction has no request section or the
request section has no URI sub-object. -/
theorem get_classic_buffer_fatal_cases (k : NHttpEnums) (self : NHttpMsgSection)
    (t : NHttpTransaction) (id sub_id : Nat) (hk : k.case_labels_distinct) :
    (id ∉ k.buffer_labels → get_classic_buffer k self t id sub_id = .assert_failed) ∧
    ((id = k.NHTTP_BUFFER_URI ∨ id = k.NHTTP_BUFFER_RAW_URI) → sub_id ≠ 0 →
      sub_id ∉ k.uri_component_labels →
      (∀ (request : NHttpMsgRequest) (uri : NHttpUri), t.get_request = some request →
        request.get_nhttp_uri = some uri →
        get_classic_buffer k self t id sub_id = .assert_failed) ∧
      (t.get_request = none →
        get_classic_buffer k self t id sub_id = .returned .FIELD_NULL) ∧
      (∀ request : NHttpMsgRequest, t.get_request = some request →
        request.get_nhttp_uri = none →
        get_classic_buffer k self t id sub_id = .returned .FIELD_NULL)) := by
  refine ⟨get_classic_buffer.undeclared k self t id sub_id, ?_⟩
  intro hid hsub hcomp
  rcases hid with hid | hid
  · subst hid
    rw [get_classic_buffer.uri k self t sub_id hk]
    refine ⟨?_, ?_, ?_⟩
    · intro request uri hr hu
      rw [hr]
      simp only [hsub, if_false, hu]
      exact get_classic_buffer.uri_component_unknown k false uri sub_id hcomp
    · intro hr
      rw [hr]
    · intro request hr hu
      rw [hr]
      simp only [hsub, if_false, hu]
  · subst hid
    rw [get_classic_buffer.raw_uri k self t sub_id hk]
    refine ⟨?_, ?_, ?_⟩
    · intro request uri hr hu
      rw [hr]
      simp only [hsub, if_false, hu]
      exact get_classic_buffer.uri_component_unknown k true uri sub_id hcomp
    · intro hr
      rw [hr]
    · intro request hr hu
      rw [hr]
      simp only [hsub, if_false, hu]

/-- C10, as the code has it, at concrete inputs: the id 40 is not declared and
fails; URI with the sub-id 99 fails on the transaction whose request section has
a URI sub-object. -/
theorem get_classic_buffer_fatal_cases_witness :
    scenario_enums.case_labels_distinct ∧
    40 ∉ scenario_enums.buffer_labels ∧
    get_classic_buffer scenario_enums client_section request_only_transaction 40 0 =
      .assert_failed ∧
    99 ∉ scenario_enums.uri_component_labels ∧
    get_classic_buffer scenario_enums client_section request_only_transaction
      scenario_enums.NHTTP_BUFFER_URI 99 = .assert_failed := by
  have h40 := (get_classic_buffer_fatal_cases scenario_enums client_section
    request_only_transaction 40 0 (by decide)).1 (by decide)
  have h99 := ((get_classic_buffer_fatal_cases scenario_enums client_section
    request_only_transaction scenario_enums.NHTTP_BUFFER_URI 99 (by decide)).2
    (Or.inl rfl) (by decide) (by decide)).1 scenario_request _ rfl rfl
  exact ⟨by decide, by decide, h40, by decide, h99⟩

/-- C10 as stated fails: URI and RAW_URI with the sub-id 99, which is nonzero and
none of the six components, return the absent Field instead of failing on the
transaction without a request section, and on a transaction whose request
section has no URI sub-object. -/
theorem get_classic_buffer_unknown_component_counterexample :
    (99 ≠ 0 ∧ 99 ∉ scenario_enums.uri_component_labels) ∧
    get_classic_buffer scenario_enums client_section empty_transaction
      scenario_enums.NHTTP_BUFFER_URI 99 = .returned .FIELD_NULL ∧
    get_classic_buffer scenario_enums client_section empty_transaction
      scenario_enums.NHTTP_BUFFER_RAW_URI 99 = .returned .FIELD_NULL ∧
    get_classic_buffer scenario_enums client_section
      { empty_transaction with
        get_request := some { scenario_request with get_nhttp_uri := none } }
      scenario_enums.NHTTP_BUFFER_URI 99 = .returned .FIELD_NULL ∧
    get_classic_buffer scenario_enums client_section empty_transaction
      scenario_enums.NHTTP_BUFFER_URI 99 ≠ .assert_failed := by
  decide

/-! Detection-buffer dispatch: totality and the individual buffers. -/

/-- The component `switch` returns for each of the six components. -/
theorem get_classic_buffer.uri_component_known (k : NHttpEnums) (raw : Bool) (uri : NHttpUri)
    (sub_id : Nat) (h : sub_id ∈ k.uri_component_labels) :
    ∃ field : Field, get_classic_buffer.uri_component k raw uri sub_id = .returned field := by
  unfold get_classic_buffer.uri_component
  simp only [NHttpEnums.uri_component_labels, List.mem_cons, List.mem_singleton,
    List.not_mem_nil, or_false] at h
  split_ifs
  all_goals first
    | exact ⟨_, rfl⟩
    | (exfalso; rcases h with h | h | h | h | h | h <;> contradiction)

/-- C11: `get_classic_buffer` is total over the declared id and sub-id space: for
every declared buffer id, with a sub-id that for URI and RAW_URI is 0 or one of
the six components and for the other ids is arbitrary, for either direction and
every transaction state, it returns a Field and does not reach an assertion. -/
theorem get_classic_buffer_total (k : NHttpEnums) (self : NHttpMsgSection)
    (t : NHttpTransaction) (id sub_id : Nat) (hid : id ∈ k.buffer_labels)
    (hsub : id = k.NHTTP_BUFFER_URI ∨ id = k.NHTTP_BUFFER_RAW_URI →
      sub_id = 0 ∨ sub_id ∈ k.uri_component_labels) :
    (∃ field : Field, get_classic_buffer k self t id sub_id = .returned field) ∧
    get_classic_buffer k self t id sub_id ≠ .assert_failed := by
  have hex : ∃ field : Field, get_classic_buffer k self t id sub_id = .returned field := by
    unfold get_classic_buffer
    dsimp only
    by_cases h1 : id = k.NHTTP_BUFFER_CLIENT_BODY
    · rw [if_pos h1]
      split_ifs
      · exact ⟨_, rfl⟩
      · split <;> exact ⟨_, rfl⟩
    rw [if_neg h1]
    by_cases h2 : id = k.NHTTP_BUFFER_COOKIE ∨ id = k.NHTTP_BUFFER_RAW_COOKIE
    · rw [if_pos h2]
      split <;> exact ⟨_, rfl⟩
    rw [if_neg h2]
    by_cases h3 : id = k.NHTTP_BUFFER_HEADER ∨ id = k.NHTTP_BUFFER_TRAILER
    · rw [if_pos h3]
      split
      · exact ⟨_, rfl⟩
      · split_ifs <;> exact ⟨_, rfl⟩
    rw [if_neg h3]
    by_cases h4 : id = k.NHTTP_BUFFER_METHOD
    · rw [if_pos h4]
      split <;> exact ⟨_, rfl⟩
    rw [if_neg h4]
    by_cases h5 : id = k.NHTTP_BUFFER_RAW_HEADER
    · rw [if_pos h5]
      split <;> exact ⟨_, rfl⟩
    rw [if_neg h5]
    by_cases h6 : id = k.NHTTP_BUFFER_STAT_CODE
    · rw [if_pos h6]
      split <;> exact ⟨_, rfl⟩
    rw [if_neg h6]
    by_cases h7 : id = k.NHTTP_BUFFER_STAT_MSG
    · rw [if_pos h7]
      split <;> exact ⟨_, rfl⟩
    rw [if_neg h7]
    by_cases h8 : id = k.NHTTP_BUFFER_RAW_URI ∨ id = k.NHTTP_BUFFER_URI
    · rw [if_pos h8]
      split
      · exact ⟨_, rfl⟩
      · by_cases h0 : sub_id = 0
        · rw [if_pos h0]
          exact ⟨_, rfl⟩
        · rw [if_neg h0]
          split
          · exact ⟨_, rfl⟩
          · exact get_classic_buffer.uri_component_known k _ _ sub_id
              ((hsub h8.symm).resolve_left h0)
    rw [if_neg h8]
    by_cases h9 : id = k.NHTTP_BUFFER_VERSION
    · rw [if_pos h9]
      split <;> exact ⟨_, rfl⟩
    rw [if_neg h9]
    by_cases h10 : id = k.NHTTP_BUFFER_RAW_TRAILER
    · rw [if_pos h10]
      split <;> exact ⟨_, rfl⟩
    exfalso
    simp only [NHttpEnums.buffer_labels, List.mem_cons, List.mem_singleton,
      List.not_mem_nil, or_false] at hid
    tauto
  refine ⟨hex, ?_⟩
  obtain ⟨field, hf⟩ := hex
  rw [hf]
  exact Outcome.noConfusion

/-- C11 at concrete inputs: on the transaction that holds a request with a URI
sub-object, URI with the component id 2 (host) returns the normalized host, and
RAW_URI with the sub-id 0 returns the raw URI; HEADER with the arbitrary sub-id
99 returns the absent Field on the server direction. -/
theorem get_classic_buffer_total_witness :
    scenario_enums.NHTTP_BUFFER_URI ∈ scenario_enums.buffer_labels ∧
    2 ∈ scenario_enums.uri_component_labels ∧
    get_classic_buffer scenario_enums client_section full_transaction
      scenario_enums.NHTTP_BUFFER_URI 2 = .returned (.data [97, 46, 98]) ∧
    get_classic_buffer scenario_enums client_section full_transaction
      scenario_enums.NHTTP_BUFFER_URI 2 ≠ .assert_failed ∧
    get_classic_buffer scenario_enums server_section full_transaction
      scenario_enums.NHTTP_BUFFER_HEADER 99 ≠ .assert_failed :=
  ⟨by decide, by decide, by decide,
    (get_classic_buffer_total scenario_enums client_section full_transaction
      scenario_enums.NHTTP_BUFFER_URI 2 (by decide) (fun _ => Or.inr (by decide))).2,
    (get_classic_buffer_total scenario_enums server_section full_transaction
      scenario_enums.NHTTP_BUFFER_HEADER 99 (by decide)
      (fun h => absurd h (by decide))).2⟩

/-- C12: CLIENT_BODY returns the detection buffer of the transaction's body
section when the querying section is client-direction and the transaction has a
body section; it returns the absent Field for every server-direction section,
also when a body section exists, and for every transaction without a body
section. So, for a body section whose detection buffer is not the absent Field,
the detection buffer is returned exactly when the section is client-direction. -/
theorem get_classic_buffer_client_body (k : NHttpEnums) (self : NHttpMsgSection)
    (t : NHttpTransaction) (sub_id : Nat) :
    (self.source_id = .SRC_CLIENT → ∀ body : NHttpMsgBody, t.get_body = some body →
      get_classic_buffer k self t k.NHTTP_BUFFER_CLIENT_BODY sub_id =
        .returned body.get_detect_buf) ∧
    (self.source_id = .SRC_SERVER →
      get_classic_buffer k self t k.NHTTP_BUFFER_CLIENT_BODY sub_id =
        .returned .FIELD_NULL) ∧
    (t.get_body = none →
      get_classic_buffer k self t k.NHTTP_BUFFER_CLIENT_BODY sub_id =
        .returned .FIELD_NULL) ∧
    (∀ body : NHttpMsgBody, t.get_body = some body → body.get_detect_buf ≠ .FIELD_NULL →
      (get_classic_buffer k self t k.NHTTP_BUFFER_CLIENT_BODY sub_id =
          .returned body.get_detect_buf ↔
        self.source_id = .SRC_CLIENT)) := by
  rw [get_classic_buffer.client_body]
  refine ⟨?_, ?_, ?_, ?_⟩
  · intro hs body hb
    rw [hs, hb]
    rfl
  · intro hs
    rw [hs]
    rfl
  · intro hb
    rw [hb]
    split_ifs <;> rfl
  · intro body hb hne
    rw [hb]
    cases hs : self.source_id
    · simp
    · simp only [ne_eq, reduceCtorEq, not_false_eq_true, if_true, Outcome.returned.injEq,
        iff_false]
      exact fun h => hne h.symm

/-- C12 at a concrete transaction: the body section's detection buffer is `hi`;
the client-direction section gets it and the server-direction section gets the
absent Field. -/
theorem get_classic_buffer_client_body_witness :
    get_classic_buffer scenario_enums client_section full_transaction
      scenario_enums.NHTTP_BUFFER_CLIENT_BODY 0 = .returned (.data [104, 105]) ∧
    get_classic_buffer scenario_enums server_section full_transaction
      scenario_enums.NHTTP_BUFFER_CLIENT_BODY 0 = .returned .FIELD_NULL ∧
    get_classic_buffer scenario_enums client_section request_only_transaction
      scenario_enums.NHTTP_BUFFER_CLIENT_BODY 0 = .returned .FIELD_NULL :=
  ⟨(get_classic_buffer_client_body scenario_enums client_section full_transaction 0).1 rfl
      _ rfl,
    (get_classic_buffer_client_body scenario_enums server_section full_transaction 0).2.1 rfl,
    (get_classic_buffer_client_body scenario_enums client_section request_only_transaction
      0).2.2.1 rfl⟩

/-- C13: VERSION selects by the section's direction only. A client-direction
section gets the version field of the transaction's request section, and the
absent Field when there is no request section, whatever the status section is; a
server-direction section gets the version field of the status section, and the
absent Field when there is no status section, whatever the request section is;
the sub-id has no influence. -/
theorem get_classic_buffer_version (k : NHttpEnums) (self : NHttpMsgSection)
    (t : NHttpTransaction) (sub_id : Nat) (hk : k.case_labels_distinct) :
    (self.source_id = .SRC_CLIENT →
      (∀ request : NHttpMsgRequest, t.get_request = some request →
        get_classic_buffer k self t k.NHTTP_BUFFER_VERSION sub_id =
          .returned request.get_version) ∧
      (t.get_request = none →
        get_classic_buffer k self t k.NHTTP_BUFFER_VERSION sub_id =
          .returned .FIELD_NULL)) ∧
    (self.source_id = .SRC_SERVER →
      (∀ status : NHttpMsgStatus, t.get_status = some status →
        get_classic_buffer k self t k.NHTTP_BUFFER_VERSION sub_id =
          .returned status.get_version) ∧
      (t.get_status = none →
        get_classic_buffer k self t k.NHTTP_BUFFER_VERSION sub_id =
          .returned .FIELD_NULL)) ∧
    (∀ other_sub_id : Nat,
      get_classic_buffer k self t k.NHTTP_BUFFER_VERSION other_sub_id =
        get_classic_buffer k self t k.NHTTP_BUFFER_VERSION sub_id) := by
  refine ⟨?_, ?_, ?_⟩
  · intro hs
    rw [get_classic_buffer.version k self t sub_id hk, hs]
    constructor
    · intro request hr
      rw [hr]
      rfl
    · intro hr
      rw [hr]
      rfl
  · intro hs
    rw [get_classic_buffer.version k self t sub_id hk, hs]
    constructor
    · intro status hr
      rw [hr]
      rfl
    · intro hr
      rw [hr]
      rfl
  · intro other_sub_id
    rw [get_classic_buffer.version k self t sub_id hk,
      get_classic_buffer.version k self t other_sub_id hk]

/-- C13 at concrete transactions: with only a request section attached, the
client-direction section gets `HTTP/1.1` and the server-direction section gets the
absent Field although a request section exists; with only a status section, the
client-direction section gets the absent Field. -/
theorem get_classic_buffer_version_witness :
    scenario_enums.case_labels_distinct ∧
    get_classic_buffer scenario_enums client_section request_only_transaction
      scenario_enums.NHTTP_BUFFER_VERSION 0 =
        .returned (.data [72, 84, 84, 80, 47, 49, 46, 49]) ∧
    get_classic_buffer scenario_enums server_section request_only_transaction
      scenario_enums.NHTTP_BUFFER_VERSION 0 = .returned .FIELD_NULL ∧
    get_classic_buffer scenario_enums client_section
      { empty_transaction with get_status := some scenario_status }
      scenario_enums.NHTTP_BUFFER_VERSION 7 = .returned .FIELD_NULL :=
  ⟨by decide,
    ((get_classic_buffer_version scenario_enums client_section request_only_transaction 0
      (by decide)).1 rfl).1 scenario_request rfl,
    ((get_classic_buffer_version scenario_enums server_section request_only_transaction 0
      (by decide)).2.1 rfl).2 rfl,
    ((get_classic_buffer_version scenario_enums client_section
      { empty_transaction with get_status := some scenario_status } 7
      (by decide)).1 rfl).2 rfl⟩

/-- C14: for every section and transaction state, HEADER with the sub-id 0 equals
RAW_HEADER with any sub-id, and TRAILER with the sub-id 0 equals RAW_TRAILER with
any sub-id: the whole raw block of this direction's header or trailer section, or
the absent Field without that section; and for every nonzero sub-id, HEADER and
TRAILER return the normalized value of the header field with that id from this
direction's header or trailer section. -/
theorem get_classic_buffer_header_trailer (k : NHttpEnums) (self : NHttpMsgSection)
    (t : NHttpTransaction) (hk : k.case_labels_distinct) :
    (∀ s : Nat, get_classic_buffer k self t k.NHTTP_BUFFER_HEADER 0 =
      get_classic_buffer k self t k.NHTTP_BUFFER_RAW_HEADER s) ∧
    (∀ s : Nat, get_classic_buffer k self t k.NHTTP_BUFFER_TRAILER 0 =
      get_classic_buffer k self t k.NHTTP_BUFFER_RAW_TRAILER s) ∧
    (∀ header : NHttpMsgHeader, t.get_header self.source_id = some header →
      get_classic_buffer k self t k.NHTTP_BUFFER_HEADER 0 = .returned header.get_headers ∧
      ∀ h : Nat, h ≠ 0 → get_classic_buffer k self t k.NHTTP_BUFFER_HEADER h =
        .returned (header.get_header_value_norm h)) ∧
    (∀ trailer : NHttpMsgTrailer, t.get_trailer self.source_id = some trailer →
      get_classic_buffer k self t k.NHTTP_BUFFER_TRAILER 0 = .returned trailer.get_headers ∧
      ∀ h : Nat, h ≠ 0 → get_classic_buffer k self t k.NHTTP_BUFFER_TRAILER h =
        .returned (trailer.get_header_value_norm h)) ∧
    (t.get_header self.source_id = none → ∀ s : Nat,
      get_classic_buffer k self t k.NHTTP_BUFFER_HEADER s = .returned .FIELD_NULL) ∧
    (t.get_trailer self.source_id = none → ∀ s : Nat,
      get_classic_buffer k self t k.NHTTP_BUFFER_TRAILER s = .returned .FIELD_NULL) := by
  refine ⟨?_, ?_, ?_, ?_, ?_, ?_⟩
  · intro s
    rw [get_classic_buffer.header k self t 0 hk, get_classic_buffer.raw_header k self t s hk]
    cases t.get_header self.source_id <;> rfl
  · intro s
    rw [get_classic_buffer.trailer k self t 0 hk, get_classic_buffer.raw_trailer k self t s hk]
    cases t.get_trailer self.source_id <;> rfl
  · intro header hh
    constructor
    · rw [get_classic_buffer.header k self t 0 hk, hh]
      rfl
    · intro h hne
      rw [get_classic_buffer.header k self t h hk, hh]
      simp only [hne, if_false]
  · intro trailer hh
    constructor
    · rw [get_classic_buffer.trailer k self t 0 hk, hh]
      rfl
    · intro h hne
      rw [get_classic_buffer.trailer k self t h hk, hh]
      simp only [hne, if_false]
  · intro hh s
    rw [get_classic_buffer.header k self t s hk, hh]
  · intro hh s
    rw [get_classic_buffer.trailer k self t s hk, hh]

/-- C14 at a concrete transaction: the client header section is the block
`Cookie: a=1`; HEADER with the sub-id 0 returns the block, HEADER with the header
id 14 the normalized value `a=1`, and on the server side TRAILER with the sub-id
60 returns `y`. -/
theorem get_classic_buffer_header_trailer_witness :
    scenario_enums.case_labels_distinct ∧
    get_classic_buffer scenario_enums client_section full_transaction
      scenario_enums.NHTTP_BUFFER_HEADER 0 =
        .returned (.data [67, 111, 111, 107, 105, 101, 58, 32, 97, 61, 49]) ∧
    get_classic_buffer scenario_enums client_section full_transaction
      scenario_enums.NHTTP_BUFFER_HEADER 14 = .returned (.data [97, 61, 49]) ∧
    get_classic_buffer scenario_enums server_section full_transaction
      scenario_enums.NHTTP_BUFFER_TRAILER 60 = .returned (.data [121]) ∧
    get_classic_buffer scenario_enums server_section full_transaction
      scenario_enums.NHTTP_BUFFER_HEADER 14 = .returned .FIELD_NULL := by
  have hc := get_classic_buffer_header_trailer scenario_enums client_section full_transaction
    (by decide)
  have hs := get_classic_buffer_header_trailer scenario_enums server_section full_transaction
    (by decide)
  exact ⟨by decide, (hc.2.2.1 scenario_header rfl).1,
    (hc.2.2.1 scenario_header rfl).2 14 (by decide),
    (hs.2.2.2.1 scenario_trailer rfl).2 60 (by decide), hs.2.2.2.2.1 rfl 14⟩

/-- C15: for every section, transaction state and sub-id, COOKIE equals
RAW_COOKIE, and both are the cookie buffer of the specification: the normalized
value of this direction's header section under the Cookie header id for a
client-direction section and under the Set-Cookie header id for a
server-direction section, absent without a header section. With nonzero header
ids this is what HEADER returns for the sub-id `HEAD_COOKIE`, respectively
`HEAD_SET_COOKIE`. -/
theorem get_classic_buffer_cookie (k : NHttpEnums) (self : NHttpMsgSection)
    (t : NHttpTransaction) (s : Nat) (hk : k.case_labels_distinct) :
    get_classic_buffer k self t k.NHTTP_BUFFER_COOKIE s =
      get_classic_buffer k self t k.NHTTP_BUFFER_RAW_COOKIE s ∧
    get_classic_buffer k self t k.NHTTP_BUFFER_COOKIE s =
      .returned (cookie_buffer_spec k self.source_id t) ∧
    (k.HEAD_COOKIE ≠ 0 → self.source_id = .SRC_CLIENT →
      get_classic_buffer k self t k.NHTTP_BUFFER_COOKIE s =
        get_classic_buffer k self t k.NHTTP_BUFFER_HEADER k.HEAD_COOKIE) ∧
    (k.HEAD_SET_COOKIE ≠ 0 → self.source_id = .SRC_SERVER →
      get_classic_buffer k self t k.NHTTP_BUFFER_COOKIE s =
        get_classic_buffer k self t k.NHTTP_BUFFER_HEADER k.HEAD_SET_COOKIE) ∧
    (t.get_header self.source_id = none →
      get_classic_buffer k self t k.NHTTP_BUFFER_COOKIE s = .returned .FIELD_NULL) := by
  refine ⟨?_, ?_, ?_, ?_, ?_⟩
  · rw [get_classic_buffer.cookie k self t s hk, get_classic_buffer.raw_cookie k self t s hk]
  · rw [get_classic_buffer.cookie k self t s hk]
    unfold cookie_buffer_spec
    cases hs : self.source_id <;> cases t.get_header _ <;> rfl
  · intro h0 hs
    rw [get_classic_buffer.cookie k self t s hk,
      get_classic_buffer.header k self t k.HEAD_COOKIE hk, hs]
    cases t.get_header SourceId.SRC_CLIENT
    · rfl
    · simp only [h0, if_false, if_true]
  · intro h0 hs
    rw [get_classic_buffer.cookie k self t s hk,
      get_classic_buffer.header k self t k.HEAD_SET_COOKIE hk, hs]
    cases t.get_header SourceId.SRC_SERVER
    · rfl
    · simp only [h0, if_false, reduceCtorEq]
  · intro hh
    rw [get_classic_buffer.cookie k self t s hk, hh]

/-- C15 at a concrete transaction: with the Cookie header id 14, COOKIE and
RAW_COOKIE on the client-direction section both return `a=1`, which is what
HEADER returns for the sub-id 14; the server direction has no header section and
gets the absent Field. -/
theorem get_classic_buffer_cookie_witness :
    scenario_enums.case_labels_distinct ∧ scenario_enums.HEAD_COOKIE ≠ 0 ∧
    get_classic_buffer scenario_enums client_section full_transaction
      scenario_enums.NHTTP_BUFFER_RAW_COOKIE 5 = .returned (.data [97, 61, 49]) ∧
    get_classic_buffer scenario_enums client_section full_transaction
      scenario_enums.NHTTP_BUFFER_HEADER 14 = .returned (.data [97, 61, 49]) ∧
    get_classic_buffer scenario_enums server_section full_transaction
      scenario_enums.NHTTP_BUFFER_COOKIE 5 = .returned .FIELD_NULL := by
  have hc := get_classic_buffer_cookie scenario_enums client_section full_transaction 5
    (by decide)
  have hs := get_classic_buffer_cookie scenario_enums server_section full_transaction 5
    (by decide)
  exact ⟨by decide, by decide, hc.1.symm.trans hc.2.1,
    (hc.2.2.1 (by decide) rfl).symm.trans hc.2.1, hs.2.2.2.2 rfl⟩

/-- What the component `switch` returns for each of the six components. -/
theorem get_classic_buffer.uri_component_cases (k : NHttpEnums) (raw : Bool) (uri : NHttpUri)
    (hk : k.case_labels_distinct) :
    get_classic_buffer.uri_component k raw uri k.UC_SCHEME = .returned uri.get_scheme ∧
    get_classic_buffer.uri_component k raw uri k.UC_HOST =
      .returned (if raw then uri.get_host else uri.get_norm_host) ∧
    get_classic_buffer.uri_component k raw uri k.UC_PORT = .returned uri.get_port ∧
    get_classic_buffer.uri_component k raw uri k.UC_PATH =
      .returned (if raw then uri.get_path else uri.get_norm_path) ∧
    get_classic_buffer.uri_component k raw uri k.UC_QUERY =
      .returned (if raw then uri.get_query else uri.get_norm_query) ∧
    get_classic_buffer.uri_component k raw uri k.UC_FRAGMENT =
      .returned (if raw then uri.get_fragment else uri.get_norm_fragment) := by
  have hb := hk.2.2
  have hr := List.nodup_reverse.mpr hb
  simp [NHttpEnums.uri_component_labels] at hb hr
  simp [get_classic_buffer.uri_component, hb, hr]

/-- The six component ids are nonzero when 0 is no component id. -/
theorem NHttpEnums.uri_component_labels_ne_zero (k : NHttpEnums)
    (h0 : 0 ∉ k.uri_component_labels) :
    k.UC_SCHEME ≠ 0 ∧ k.UC_HOST ≠ 0 ∧ k.UC_PORT ≠ 0 ∧ k.UC_PATH ≠ 0 ∧ k.UC_QUERY ≠ 0 ∧
      k.UC_FRAGMENT ≠ 0 := by
  simp only [NHttpEnums.uri_component_labels, List.mem_cons, List.mem_singleton,
    List.not_mem_nil, or_false, not_or] at h0
  obtain ⟨h1, h2, h3, h4, h5, h6⟩ := h0
  exact ⟨Ne.symm h1, Ne.symm h2, Ne.symm h3, Ne.symm h4, Ne.symm h5, Ne.symm h6⟩

/-- C16: for every section whose transaction has a request section: with the
sub-id 0, RAW_URI returns the request's raw URI field and URI its
legacy-normalized URI field, whether or not the request has a URI sub-object;
with the sub-id of host, path, query or fragment and a URI sub-object present,
RAW_URI returns the raw component and URI the normalized component; with a
component sub-id and no URI sub-object both return the absent Field. The
component ids are nonzero. -/
theorem get_classic_buffer_uri (k : NHttpEnums) (self : NHttpMsgSection)
    (t : NHttpTransaction) (request : NHttpMsgRequest) (hk : k.case_labels_distinct)
    (h0 : 0 ∉ k.uri_component_labels) (hr : t.get_request = some request) :
    (get_classic_buffer k self t k.NHTTP_BUFFER_RAW_URI 0 = .returned request.get_uri ∧
      get_classic_buffer k self t k.NHTTP_BUFFER_URI 0 =
        .returned request.get_uri_norm_legacy) ∧
    (∀ uri : NHttpUri, request.get_nhttp_uri = some uri →
      (get_classic_buffer k self t k.NHTTP_BUFFER_RAW_URI k.UC_HOST = .returned uri.get_host ∧
        get_classic_buffer k self t k.NHTTP_BUFFER_URI k.UC_HOST =
          .returned uri.get_norm_host) ∧
      (get_classic_buffer k self t k.NHTTP_BUFFER_RAW_URI k.UC_PATH = .returned uri.get_path ∧
        get_classic_buffer k self t k.NHTTP_BUFFER_URI k.UC_PATH =
          .returned uri.get_norm_path) ∧
      (get_classic_buffer k self t k.NHTTP_BUFFER_RAW_URI k.UC_QUERY =
          .returned uri.get_query ∧
        get_classic_buffer k self t k.NHTTP_BUFFER_URI k.UC_QUERY =
          .returned uri.get_norm_query) ∧
      (get_classic_buffer k self t k.NHTTP_BUFFER_RAW_URI k.UC_FRAGMENT =
          .returned uri.get_fragment ∧
        get_classic_buffer k self t k.NHTTP_BUFFER_URI k.UC_FRAGMENT =
          .returned uri.get_norm_fragment)) ∧
    (request.get_nhttp_uri = none → ∀ sub_id : Nat, sub_id ∈ k.uri_component_labels →
      get_classic_buffer k self t k.NHTTP_BUFFER_RAW_URI sub_id = .returned .FIELD_NULL ∧
      get_classic_buffer k self t k.NHTTP_BUFFER_URI sub_id = .returned .FIELD_NULL) := by
  obtain ⟨_, hhost, _, hpath, hquery, hfragment⟩ := NHttpEnums.uri_component_labels_ne_zero k h0
  refine ⟨?_, ?_, ?_⟩
  · rw [get_classic_buffer.raw_uri k self t 0 hk, get_classic_buffer.uri k self t 0 hk, hr]
    exact ⟨rfl, rfl⟩
  · intro uri hu
    have hraw := get_classic_buffer.uri_component_cases k true uri hk
    have hnorm := get_classic_buffer.uri_component_cases k false uri hk
    simp only [get_classic_buffer.raw_uri k self t _ hk, get_classic_buffer.uri k self t _ hk,
      hr, hu, hhost, hpath, hquery, hfragment, if_false]
    exact ⟨⟨hraw.2.1, hnorm.2.1⟩, ⟨hraw.2.2.2.1, hnorm.2.2.2.1⟩,
      ⟨hraw.2.2.2.2.1, hnorm.2.2.2.2.1⟩, ⟨hraw.2.2.2.2.2, hnorm.2.2.2.2.2⟩⟩
  · intro hu sub_id hsub
    have hne : sub_id ≠ 0 := fun h => h0 (h ▸ hsub)
    simp only [get_classic_buffer.raw_uri k self t _ hk, get_classic_buffer.uri k self t _ hk,
      hr, hu, hne, if_false, and_self]

/-- C16 at a concrete transaction: the request `GET http://A.b:80/P?q#f`; with
the sub-id 0 RAW_URI returns the raw URI and URI the legacy-normalized `/p?q`;
with the host id 2 RAW_URI returns `A.b` and URI `a.b`; and on a request without
a URI sub-object the path id 4 gives the absent Field. -/
theorem get_classic_buffer_uri_witness :
    scenario_enums.case_labels_distinct ∧ 0 ∉ scenario_enums.uri_component_labels ∧
    get_classic_buffer scenario_enums server_section full_transaction
      scenario_enums.NHTTP_BUFFER_URI 0 = .returned (.data [47, 112, 63, 113]) ∧
    get_classic_buffer scenario_enums server_section full_transaction
      scenario_enums.NHTTP_BUFFER_RAW_URI 2 = .returned (.data [65, 46, 98]) ∧
    get_classic_buffer scenario_enums server_section full_transaction
      scenario_enums.NHTTP_BUFFER_URI 2 = .returned (.data [97, 46, 98]) ∧
    get_classic_buffer scenario_enums client_section
      { empty_transaction with
        get_request := some { absolute_request with get_nhttp_uri := none } }
      scenario_enums.NHTTP_BUFFER_URI 4 = .returned .FIELD_NULL := by
  have h := get_classic_buffer_uri scenario_enums server_section full_transaction
    absolute_request (by decide) (by decide) rfl
  have hn := get_classic_buffer_uri scenario_enums client_section
    { empty_transaction with
      get_request := some { absolute_request with get_nhttp_uri := none } }
    { absolute_request with get_nhttp_uri := none } (by decide) (by decide) rfl
  exact ⟨by decide, by decide, h.1.2, (h.2.1 _ rfl).1.1, (h.2.1 _ rfl).1.2,
    (hn.2.2 rfl 4 (by decide)).2⟩

/-- C17: for every section and transaction state, the raw and the normalized
request for a URI component without normalization rule return the identical
result: RAW_URI and URI agree on the port and on the scheme. The component ids
are nonzero. -/
theorem get_classic_buffer_uri_port_scheme (k : NHttpEnums) (self : NHttpMsgSection)
    (t : NHttpTransaction) (hk : k.case_labels_distinct) (h0 : 0 ∉ k.uri_component_labels) :
    get_classic_buffer k self t k.NHTTP_BUFFER_RAW_URI k.UC_PORT =
      get_classic_buffer k self t k.NHTTP_BUFFER_URI k.UC_PORT ∧
    get_classic_buffer k self t k.NHTTP_BUFFER_RAW_URI k.UC_SCHEME =
      get_classic_buffer k self t k.NHTTP_BUFFER_URI k.UC_SCHEME := by
  obtain ⟨hscheme, _, hport, _, _, _⟩ := NHttpEnums.uri_component_labels_ne_zero k h0
  simp only [get_classic_buffer.raw_uri k self t _ hk, get_classic_buffer.uri k self t _ hk]
  cases t.get_request with
  | none => exact ⟨rfl, rfl⟩
  | some request =>
    simp only [hport, hscheme, if_false]
    cases request.get_nhttp_uri with
    | none => exact ⟨rfl, rfl⟩
    | some uri =>
      have hraw := get_classic_buffer.uri_component_cases k true uri hk
      have hnorm := get_classic_buffer.uri_component_cases k false uri hk
      exact ⟨hraw.2.2.1.trans hnorm.2.2.1.symm, hraw.1.trans hnorm.1.symm⟩

/-- C17 at a concrete transaction: on the request `GET http://A.b:80/P?q#f` both
RAW_URI and URI return `80` for the port id 3 and `http` for the scheme id 1. -/
theorem get_classic_buffer_uri_port_scheme_witness :
    scenario_enums.case_labels_distinct ∧ 0 ∉ scenario_enums.uri_component_labels ∧
    get_classic_buffer scenario_enums client_section full_transaction
      scenario_enums.NHTTP_BUFFER_RAW_URI 3 = .returned (.data [56, 48]) ∧
    get_classic_buffer scenario_enums client_section full_transaction
      scenario_enums.NHTTP_BUFFER_URI 3 = .returned (.data [56, 48]) ∧
    get_classic_buffer scenario_enums client_section full_transaction
      scenario_enums.NHTTP_BUFFER_URI 1 = .returned (.data [104, 116, 116, 112]) := by
  have h := get_classic_buffer_uri_port_scheme scenario_enums client_section full_transaction
    (by decide) (by decide)
  have hp : get_classic_buffer scenario_enums client_section full_transaction
      scenario_enums.NHTTP_BUFFER_RAW_URI 3 = .returned (.data [56, 48]) := by decide
  have hs : get_classic_buffer scenario_enums client_section full_transaction
      scenario_enums.NHTTP_BUFFER_RAW_URI 1 = .returned (.data [104, 116, 116, 112]) := by
    decide
  exact ⟨by decide, by decide, hp, h.1.symm.trans hp, h.2.symm.trans hs⟩

/-! Construction and further properties of the sizing. -/

/-- An `int` expression whose mathematical value is in range has that value. -/
theorem int_value_of_range (x : Int) (hlo : -(2 ^ 31) ≤ x) (hhi : x < 2 ^ 31) :
    int_value x = x := by
  unfold int_value
  omega

/-- C18: for every raw buffer length `buf_size` of 16 bits, the constructor gives
the scratch arena the size `2 * buf_size + 500` exactly, without wrap-around of
the `int` arithmetic: the size lies between 500 and 131570 and is strictly
greater than twice the raw length. -/
theorem scratch_pad_size (k : NHttpEnums) (buffer : List Nat) (buf_size : Nat)
    (session_data_ : NHttpFlowData) (source_id_ : SourceId) (buf_owner : Bool)
    (h : buf_size < 2 ^ 16) :
    (NHttpMsgSection.NHttpMsgSection k buffer buf_size session_data_ source_id_
      buf_owner).scratch_pad = 2 * (buf_size : Int) + 500 ∧
    500 ≤ (NHttpMsgSection.NHttpMsgSection k buffer buf_size session_data_ source_id_
      buf_owner).scratch_pad ∧
    (NHttpMsgSection.NHttpMsgSection k buffer buf_size session_data_ source_id_
      buf_owner).scratch_pad ≤ 131570 ∧
    2 * (buf_size : Int) < (NHttpMsgSection.NHttpMsgSection k buffer buf_size session_data_
      source_id_ buf_owner).scratch_pad := by
  have hs : (NHttpMsgSection.NHttpMsgSection k buffer buf_size session_data_ source_id_
      buf_owner).scratch_pad = 2 * (buf_size : Int) + 500 := by
    show int_value (int_value (2 * (buf_size : Int)) + 500) = 2 * (buf_size : Int) + 500
    rw [int_value_of_range (2 * (buf_size : Int)) (by omega) (by omega),
      int_value_of_range (2 * (buf_size : Int) + 500) (by omega) (by omega)]
  rw [hs]
  refine ⟨rfl, ?_, ?_, ?_⟩ <;> omega

/-- C18 at the largest length: a buffer length of 65535 gives the arena size
131570; the client-direction scenario section over 3 bytes has the size 506. -/
theorem scratch_pad_size_witness :
    (65535 : Nat) < 2 ^ 16 ∧
    (NHttpMsgSection.NHttpMsgSection scenario_enums [] 65535 (scenario_flow 2 0 0)
      .SRC_SERVER true).scratch_pad = 131570 ∧
    client_section.scratch_pad = 506 :=
  ⟨by decide,
    (scratch_pad_size scenario_enums [] 65535 (scenario_flow 2 0 0) .SRC_SERVER true
      (by decide)).1,
    (scratch_pad_size scenario_enums [71, 69, 84] 3 (scenario_flow 2 50000 200) .SRC_CLIENT
      false (by decide)).1⟩

/-- C19: `update_depth` is monotone in the depth budgets. For one of the three
compression modes, the same in both states, and a direction, if the two depth
budgets in state `sdB` are each no larger than in state `sdA`, then the
`section_size_target` and `section_size_max` written for `sdB` are no larger than
those written for `sdA`. In a compressed mode this uses that `GZIP_BLOCK_SIZE` and
`FINAL_GZIP_BLOCK_SIZE` are non-negative. -/
theorem update_depth_monotone (k : NHttpEnums) (self : NHttpMsgSection)
    (sdA sdB : NHttpFlowData)
    (hc : sdB.compression.get self.source_id = sdA.compression.get self.source_id)
    (hv : sdA.compression.get self.source_id = k.CMP_NONE ∨
      sdA.compression.get self.source_id = k.CMP_GZIP ∨
      sdA.compression.get self.source_id = k.CMP_DEFLATE)
    (hf : sdB.file_depth_remaining.get self.source_id ≤
      sdA.file_depth_remaining.get self.source_id)
    (hd : sdB.detect_depth_remaining.get self.source_id ≤
      sdA.detect_depth_remaining.get self.source_id)
    (hg : sdA.compression.get self.source_id ≠ k.CMP_NONE →
      0 ≤ k.GZIP_BLOCK_SIZE ∧ 0 ≤ k.FINAL_GZIP_BLOCK_SIZE) :
    (update_depth k self sdB).2.section_size_target.get self.source_id ≤
      (update_depth k self sdA).2.section_size_target.get self.source_id ∧
    (update_depth k self sdB).2.section_size_max.get self.source_id ≤
      (update_depth k self sdA).2.section_size_max.get self.source_id := by
  have hdepth : update_depth.depth self.source_id sdB ≤ update_depth.depth self.source_id sdA := by
    rw [update_depth.depth_eq_max, update_depth.depth_eq_max]
    exact max_le_max hf hd
  by_cases hn : sdA.compression.get self.source_id = k.CMP_NONE
  · rw [update_depth.none_run k self sdA hn, update_depth.none_run k self sdB (hc.trans hn)]
    simp only [PerSource.get_set_same]
    exact ⟨min_le_min_right _ hdepth, min_le_min_right _ hdepth⟩
  · have hz : sdA.compression.get self.source_id = k.CMP_GZIP ∨
        sdA.compression.get self.source_id = k.CMP_DEFLATE := hv.resolve_left hn
    obtain ⟨hg1, hg2⟩ := hg hn
    rw [update_depth.gzip_run k self sdA hn hz,
      update_depth.gzip_run k self sdB (hc ▸ hn) (hc ▸ hz)]
    simp only [PerSource.get_set_same]
    constructor <;> split_ifs <;> omega

/-- C19 at concrete states: the Gzip budgets fall from (50000, 200) to (0, 0) and
the written sizes fall from 8192 and 65536 to 0. -/
theorem update_depth_monotone_witness :
    (update_depth scenario_enums client_section
      (scenario_flow 3 0 0)).2.section_size_target.get .SRC_CLIENT ≤
    (update_depth scenario_enums client_section
      (scenario_flow 3 50000 200)).2.section_size_target.get .SRC_CLIENT ∧
    (update_depth scenario_enums client_section
      (scenario_flow 3 50000 200)).2.section_size_target.get .SRC_CLIENT = 8192 ∧
    (update_depth scenario_enums client_section
      (scenario_flow 3 0 0)).2.section_size_target.get .SRC_CLIENT = 0 :=
  ⟨(update_depth_monotone scenario_enums client_section (scenario_flow 3 50000 200)
      (scenario_flow 3 0 0) rfl (Or.inr (Or.inl rfl)) (by decide) (by decide)
      (fun _ => ⟨by decide, by decide⟩)).1,
    by decide, by decide⟩

/-- C20: for each of the three compression modes and a direction whose two depth
budgets are non-negative, `update_depth` writes
`0 ≤ section_size_target ≤ section_size_max`, given
`0 ≤ DATA_BLOCK_SIZE ≤ FINAL_BLOCK_SIZE` and
`0 ≤ GZIP_BLOCK_SIZE ≤ FINAL_GZIP_BLOCK_SIZE`; and with positive block sizes
`section_size_target = 0` if and only if `section_size_max = 0` if and only if
`depth = max(file_depth_remaining, detect_depth_remaining) = 0`. -/
theorem update_depth_size_invariant (k : NHttpEnums) (self : NHttpMsgSection)
    (sd : NHttpFlowData)
    (hv : sd.compression.get self.source_id = k.CMP_NONE ∨
      sd.compression.get self.source_id = k.CMP_GZIP ∨
      sd.compression.get self.source_id = k.CMP_DEFLATE)
    (hb : 0 ≤ sd.file_depth_remaining.get self.source_id ∧
      0 ≤ sd.detect_depth_remaining.get self.source_id) :
    (0 ≤ k.DATA_BLOCK_SIZE → k.DATA_BLOCK_SIZE ≤ k.FINAL_BLOCK_SIZE →
      0 ≤ k.GZIP_BLOCK_SIZE → k.GZIP_BLOCK_SIZE ≤ k.FINAL_GZIP_BLOCK_SIZE →
      0 ≤ (update_depth k self sd).2.section_size_target.get self.source_id ∧
      (update_depth k self sd).2.section_size_target.get self.source_id ≤
        (update_depth k self sd).2.section_size_max.get self.source_id) ∧
    (0 < k.DATA_BLOCK_SIZE → 0 < k.FINAL_BLOCK_SIZE →
      0 < k.GZIP_BLOCK_SIZE → 0 < k.FINAL_GZIP_BLOCK_SIZE →
      ((update_depth k self sd).2.section_size_target.get self.source_id = 0 ↔
        (update_depth k self sd).2.section_size_max.get self.source_id = 0) ∧
      ((update_depth k self sd).2.section_size_max.get self.source_id = 0 ↔
        max (sd.file_depth_remaining.get self.source_id)
          (sd.detect_depth_remaining.get self.source_id) = 0)) := by
  have hdepth : 0 ≤ update_depth.depth self.source_id sd := by
    rw [update_depth.depth_eq_max]
    exact le_max_of_le_left hb.1
  rw [← update_depth.depth_eq_max]
  by_cases hn : sd.compression.get self.source_id = k.CMP_NONE
  · rw [update_depth.none_run k self sd hn]
    simp only [PerSource.get_set_same]
    generalize update_depth.depth self.source_id sd = depth at hdepth ⊢
    constructor
    · intro h1 h2 _ _
      exact ⟨le_min hdepth h1, min_le_min_left _ h2⟩
    · intro h1 h2 _ _
      rcases le_total depth k.DATA_BLOCK_SIZE with ha | ha <;>
        rcases le_total depth k.FINAL_BLOCK_SIZE with hb | hb <;>
        simp only [min_eq_left ha, min_eq_right ha, min_eq_left hb, min_eq_right hb,
          and_self, and_true] <;>
        omega
  · have hz : sd.compression.get self.source_id = k.CMP_GZIP ∨
        sd.compression.get self.source_id = k.CMP_DEFLATE := hv.resolve_left hn
    rw [update_depth.gzip_run k self sd hn hz]
    simp only [PerSource.get_set_same]
    generalize update_depth.depth self.source_id sd = depth at hdepth ⊢
    constructor
    · intro _ _ h3 h4
      split_ifs <;> omega
    · intro _ _ h3 h4
      split_ifs <;> omega

/-- C20 at concrete states: with the scenario's positive block sizes the
uncompressed state with budgets 300 and 200 gets target 300 and max 300, and the
Deflate state with budgets 0 and 0 gets 0 and 0. -/
theorem update_depth_size_invariant_witness :
    (0 ≤ (update_depth scenario_enums client_section
        (scenario_flow 2 300 200)).2.section_size_target.get .SRC_CLIENT ∧
      (update_depth scenario_enums client_section
        (scenario_flow 2 300 200)).2.section_size_target.get .SRC_CLIENT ≤
      (update_depth scenario_enums client_section
        (scenario_flow 2 300 200)).2.section_size_max.get .SRC_CLIENT) ∧
    ((update_depth scenario_enums client_section
        (scenario_flow 4 0 0)).2.section_size_max.get .SRC_CLIENT = 0 ↔
      max ((scenario_flow 4 0 0).file_depth_remaining.get .SRC_CLIENT)
        ((scenario_flow 4 0 0).detect_depth_remaining.get .SRC_CLIENT) = 0) ∧
    (update_depth scenario_enums client_section
      (scenario_flow 2 300 200)).2.section_size_max.get .SRC_CLIENT = 300 :=
  ⟨(update_depth_size_invariant scenario_enums client_section (scenario_flow 2 300 200)
      (Or.inl rfl) ⟨by decide, by decide⟩).1 (by decide) (by decide) (by decide) (by decide),
    ((update_depth_size_invariant scenario_enums client_section (scenario_flow 4 0 0)
      (Or.inr (Or.inr rfl)) ⟨by decide, by decide⟩).2 (by decide) (by decide) (by decide)
      (by decide)).2,
    by decide⟩

end NHttp
